import Mathlib

set_option maxRecDepth 8000

/-!
Verification development for the risk aggregation and screening engine in
`src/api/full-diligence.js` (v5.4).  JavaScript strings are modelled as Lean
`String`s with the relevant JS operations (`trim`, `toLowerCase`,
`toUpperCase`, `includes`, `split`) implemented over `String.data : List Char`
so that every definition evaluates inside the kernel.  JS whitespace (`\s`) is
modelled by its ASCII subset; JS float confidence scores (all compared against
0.3 / 0.5 in the source) are modelled in integer hundredths.  Network calls
are modelled as an explicit environment of provider outcomes; the handler is
embedded for requests without vessel / document / port / captain fields (the
source blocks guarded by those fields are skipped for such requests).
-/

/-- JS whitespace test (ASCII subset of the `\s` class: space, tab, LF, VT, FF, CR). -/
def isWs (c : Char) : Bool :=
  c.toNat == 32 || c.toNat == 9 || c.toNat == 10 || c.toNat == 11 || c.toNat == 12 || c.toNat == 13

/-- JS `String.prototype.toLowerCase`, on the ASCII range. -/
def jsToLower (s : String) : String :=
  ⟨s.data.map Char.toLower⟩

/-- JS `String.prototype.toUpperCase`, on the ASCII range. -/
def jsToUpper (s : String) : String :=
  ⟨s.data.map Char.toUpper⟩

/-- Drop leading whitespace from a character list. -/
def trimLeftL (l : List Char) : List Char :=
  l.dropWhile isWs

/-- Drop trailing whitespace from a character list. -/
def trimRightL (l : List Char) : List Char :=
  (l.reverse.dropWhile isWs).reverse

/-- Drop leading and trailing whitespace. -/
def trimBothL (l : List Char) : List Char :=
  trimRightL (trimLeftL l)

/-- JS `String.prototype.trim` (ASCII whitespace). -/
def jsTrim (s : String) : String :=
  ⟨trimBothL s.data⟩

/-- Boolean list-prefix test on characters. -/
def isPrefixL : List Char → List Char → Bool
  | [], _ => true
  | _ :: _, [] => false
  | a :: ps, b :: ls => a == b && isPrefixL ps ls

/-- Boolean substring test on character lists (`pat` occurs inside `hay`). -/
def containsSubL (pat : List Char) : List Char → Bool
  | [] => pat.isEmpty
  | c :: t => isPrefixL pat (c :: t) || containsSubL pat t

/-- JS `hay.includes(pat)`. -/
def containsSub (hay pat : String) : Bool :=
  containsSubL pat.data hay.data

/-- JS `String.prototype.split` on a single separator character
(`"a@b@c".split("@") = ["a","b","c"]`, `"".split("@") = [""]`). -/
def splitOnChar (sep : Char) : List Char → List (List Char)
  | [] => [[]]
  | c :: rest =>
    let r := splitOnChar sep rest
    if c == sep then [] :: r
    else
      match r with
      | [] => [[c]]
      | h :: t => (c :: h) :: t

/-- Append an element to a list unless already present
(one step of the `includes`-guarded `push` pattern in the source). -/
def pushIfAbsent (l : List String) (x : String) : List String :=
  if l.contains x then l else l ++ [x]

/-- JS `[...new Set(l)]`: deduplicate keeping first occurrences in order. -/
def dedupFirst (l : List String) : List String :=
  l.foldl pushIfAbsent []

/-- Truthiness of an optional JS string (`undefined` and `""` are falsy). -/
def truthyOpt : Option String → Bool
  | none => false
  | some s => s != ""

/-- JS `a || b` on optional strings (falls through on `undefined` / `""`). -/
def orFalsy (a b : Option String) : Option String :=
  match a with
  | some s => if s == "" then b else some s
  | none => b

/-! ## Data model (from the source) -/

/-- One record of the request's `allParties` array. -/
structure Party where
  company : Option String
  name : Option String
  role : Option String
  country : Option String
  email : Option String
deriving DecidableEq

/-- The request body fields consumed by the embedded fragment of the handler
(`companyName, email, country, representative, allParties, iban, swift`). -/
structure RequestBody where
  companyName : Option String
  email : Option String
  country : Option String
  representative : Option String
  allParties : Option (List Party)
  iban : Option String
  swift : Option String
deriving DecidableEq

/-- An entry of `entitiesToCheck` (source lines 156-218).  Source field
`type` holds the string `"company"` or `"person"`. -/
structure Entity where
  name : String
  type : String
  role : String
  country : Option String
  email : Option String
deriving DecidableEq

/-- State of the deduplicating entity builder: `seenNames` set (as a list) plus
the accumulated `entitiesToCheck`. -/
structure BuildState where
  seen : List String
  entities : List Entity
deriving DecidableEq

/-- Result of `validateEmail` (v5.4): format validity, disposable-domain test,
and the lower-cased domain. -/
structure EmailResult where
  valid : Bool
  disposable : Bool
  domain : Option String
deriving DecidableEq

/-- Result of `validateIBAN` (v5.4).  The source omits `countryCode`/`country`
on the invalid branch; that is modelled by `""`. -/
structure IBANResult where
  valid : Bool
  iban : String
  countryCode : String
  country : String
deriving DecidableEq

/-- Result of `validateSWIFT` (v5.4); absent fields modelled by `""`. -/
structure SWIFTResult where
  valid : Bool
  swift : String
  bankCode : String
  countryCode : String
  locationCode : String
  branchCode : String
deriving DecidableEq

/-- Result of `checkJurisdictionRisk`. -/
structure JRisk where
  country : String
  fatfBlacklist : Bool
  fatfGreylist : Bool
  sanctioned : Bool
  highSecrecy : Bool
  risk : String
deriving DecidableEq

/-- A raw OpenSanctions hit.  `score` is the JS float confidence in integer
hundredths (0.5 ↦ 50); `hasPosition` models truthiness of
`properties?.position`. -/
structure Candidate where
  caption : String
  score : Int
  schema : String
  datasets : List String
  topics : List String
  hasPosition : Bool
deriving DecidableEq

/-- Outcome of the OpenSanctions fetch: network failure (the `catch` path),
non-2xx response, or a parsed `data.results` array. -/
inductive OSFetch where
  | netError : OSFetch
  | httpNotOk : Nat → OSFetch
  | ok : List Candidate → OSFetch
deriving DecidableEq

/-- The fields of the `checkOpenSanctions` result that the handler consumes.
`matchNames` models the source field `matches`, kept as the list of captions. -/
structure OSResult where
  found : Bool
  matchNames : List String
  lists : List String
  isPEP : Bool
  isWanted : Bool
deriving DecidableEq

/-- The no-finding result returned on provider failure or no significant match. -/
def noFindingOS : OSResult :=
  ⟨false, [], [], false, false⟩

/-- A detected financial instrument (output shape of
`detectFinancialInstruments`). -/
structure Instrument where
  type : String
  risk : String
deriving DecidableEq

/-- Provider outcomes for one aggregation run.  The OpenSanctions call is
modelled at fetch level (claims reason about its error handling); the other
providers are modelled by whether they reported a finding for a name, and the
domain-age lookup by an optional `ageInDays`. -/
structure Env where
  osFetch : String → OSFetch
  interpolRed : String → Bool
  offshoreLeaks : String → Bool
  worldBankDebarred : String → Bool
  tradeGovCSL : String → Bool
  samGovExclusions : String → Bool
  interpolYellow : String → Bool
  ukCompaniesHouse : String → Bool
  singaporeACRA : String → Bool
  openCorporates : String → Bool
  gleif : String → Bool
  secEdgar : String → Bool
  domainAge : String → Option Int

/-- The fields of the handler's `results` object that the embedded fragment
writes (nested `found` flags are flattened; output-only payload fields that no
claim reads are omitted). -/
structure Results where
  riskScore : Int
  riskLevel : String
  redFlags : List String
  positiveSignals : List String
  databasesChecked : List String
  sanctionsFound : Bool
  sanctionsMatches : List String
  sanctionsLists : List String
  pepFound : Bool
  interpolFound : Bool
  offshoreFound : Bool
  worldBankFound : Bool
  cslFound : Bool
  samFound : Bool
  companyRegistryFound : Bool
  leiFound : Bool
  secFound : Bool
  emailValidation : Option EmailResult
  jurisdiction : List JRisk
  financialIban : Option IBANResult
  financialSwift : Option SWIFTResult
deriving DecidableEq

/-- Initial `results` object (source lines 42-150, modelled fields). -/
def initResults : Results where
  riskScore := 0
  riskLevel := "GREEN"
  redFlags := []
  positiveSignals := []
  databasesChecked := []
  sanctionsFound := false
  sanctionsMatches := []
  sanctionsLists := []
  pepFound := false
  interpolFound := false
  offshoreFound := false
  worldBankFound := false
  cslFound := false
  samFound := false
  companyRegistryFound := false
  leiFound := false
  secFound := false
  emailValidation := none
  jurisdiction := []
  financialIban := none
  financialSwift := none

/-! ## Static rule tables (source lines 183, 480, 522, 1600-1603, 1677-1689, 2020-2086, 2111-2197) -/

/-- Company-name indicator keywords (source line 183). -/
def companyIndicators : List String :=
  ["llc", "ltd", "inc", "corp", "company", "co.", "gmbh", "sa", "ag", "plc",
   "limited", "corporation", "enterprises", "holdings", "group"]

/-- Disposable email domains (source lines 1600-1603). -/
def disposableDomains : List String :=
  ["tempmail.com", "throwaway.email", "guerrillamail.com", "mailinator.com",
   "10minutemail.com", "temp-mail.org", "fakeinbox.com", "trashmail.com"]

/-- Free email providers (source line 480). -/
def freeEmailDomains : List String :=
  ["gmail.com", "yahoo.com", "hotmail.com", "outlook.com", "aol.com"]

/-- Sanctioned IBAN country codes (source line 522). -/
def sanctionedIbanCountries : List String :=
  ["IR", "KP", "SY", "CU", "RU", "BY"]

/-- IBAN length table (source lines 1677-1680; defined in `validateIBAN` but
never consulted by it). -/
def ibanLengths : List (String × Nat) :=
  [("DE", 22), ("GB", 22), ("FR", 27), ("IT", 27), ("ES", 24), ("NL", 18),
   ("BE", 16), ("AT", 20), ("CH", 21), ("LU", 20), ("AE", 23), ("SA", 24)]

/-- IBAN country display names (source lines 1683-1689). -/
def ibanCountryNames : List (String × String) :=
  [("DE", "Germany"), ("GB", "United Kingdom"), ("FR", "France"), ("IT", "Italy"),
   ("ES", "Spain"), ("NL", "Netherlands"), ("BE", "Belgium"), ("AT", "Austria"),
   ("CH", "Switzerland"), ("LU", "Luxembourg"), ("AE", "UAE"), ("SA", "Saudi Arabia"),
   ("US", "USA"), ("RU", "Russia"), ("IR", "Iran"), ("KP", "North Korea"),
   ("SY", "Syria"), ("CU", "Cuba"), ("BY", "Belarus")]

/-- FATF blacklist country substrings (source line 2021). -/
def fatfBlacklistTable : List String :=
  ["iran", "north korea", "dprk", "myanmar", "burma"]

/-- FATF greylist country substrings (source lines 2024-2049). -/
def fatfGreylistTable : List String :=
  ["uae", "united arab emirates", "emirates", "dubai", "abu dhabi",
   "turkey", "türkiye", "turkiye", "south africa", "syria", "yemen",
   "nigeria", "pakistan", "philippines", "barbados", "burkina faso",
   "cameroon", "democratic republic of congo", "drc", "gibraltar",
   "haiti", "jamaica", "jordan", "mali", "mozambique", "panama",
   "senegal", "south sudan", "tanzania", "uganda", "vietnam"]

/-- Comprehensively sanctioned country substrings (source lines 2052-2063). -/
def sanctionedCountriesTable : List String :=
  ["russia", "russian federation", "belarus", "iran", "north korea", "dprk",
   "syria", "cuba", "venezuela", "crimea", "donetsk", "luhansk",
   "myanmar", "burma"]

/-- High-secrecy jurisdiction substrings (source lines 2066-2086). -/
def highSecrecyTable : List String :=
  ["switzerland", "luxembourg", "cayman islands", "caymans", "singapore",
   "hong kong", "jersey", "guernsey", "isle of man",
   "british virgin islands", "bvi", "bermuda", "bahamas", "mauritius",
   "liechtenstein", "monaco", "andorra", "panama", "seychelles",
   "marshall islands", "delaware", "usa"]

/-- Country-name-to-ISO-code table (source lines 2111-2197). -/
def countryMapTable : List (String × String) :=
  [("united kingdom", "GB"), ("uk", "GB"), ("great britain", "GB"), ("england", "GB"),
   ("scotland", "GB"), ("wales", "GB"),
   ("united states", "US"), ("usa", "US"), ("us", "US"), ("america", "US"),
   ("germany", "DE"), ("deutschland", "DE"), ("france", "FR"), ("italy", "IT"),
   ("spain", "ES"), ("netherlands", "NL"), ("holland", "NL"), ("belgium", "BE"),
   ("switzerland", "CH"), ("austria", "AT"), ("sweden", "SE"), ("norway", "NO"),
   ("denmark", "DK"), ("finland", "FI"), ("ireland", "IE"), ("portugal", "PT"),
   ("greece", "GR"), ("poland", "PL"), ("czech republic", "CZ"), ("czechia", "CZ"),
   ("hungary", "HU"), ("romania", "RO"), ("bulgaria", "BG"), ("croatia", "HR"),
   ("slovakia", "SK"), ("slovenia", "SI"), ("estonia", "EE"), ("latvia", "LV"),
   ("lithuania", "LT"), ("luxembourg", "LU"), ("malta", "MT"), ("cyprus", "CY"),
   ("canada", "CA"), ("australia", "AU"), ("new zealand", "NZ"), ("japan", "JP"),
   ("south korea", "KR"), ("korea", "KR"), ("china", "CN"), ("india", "IN"),
   ("brazil", "BR"), ("mexico", "MX"), ("argentina", "AR"), ("chile", "CL"),
   ("colombia", "CO"), ("peru", "PE"), ("south africa", "ZA"), ("nigeria", "NG"),
   ("kenya", "KE"), ("egypt", "EG"), ("morocco", "MA"),
   ("uae", "AE"), ("united arab emirates", "AE"), ("dubai", "AE"), ("abu dhabi", "AE"),
   ("saudi arabia", "SA"), ("qatar", "QA"), ("kuwait", "KW"), ("bahrain", "BH"),
   ("oman", "OM"), ("israel", "IL"), ("turkey", "TR"), ("türkiye", "TR"),
   ("russia", "RU"), ("russian federation", "RU"), ("ukraine", "UA"),
   ("singapore", "SG"), ("hong kong", "HK"), ("taiwan", "TW"), ("thailand", "TH"),
   ("malaysia", "MY"), ("indonesia", "ID"), ("philippines", "PH"), ("vietnam", "VN"),
   ("pakistan", "PK"), ("bangladesh", "BD"), ("iran", "IR"), ("iraq", "IQ"),
   ("syria", "SY"), ("lebanon", "LB"), ("jordan", "JO"),
   ("cayman islands", "KY"), ("british virgin islands", "VG"), ("bvi", "VG"),
   ("bermuda", "BM"), ("bahamas", "BS"), ("panama", "PA"), ("liechtenstein", "LI"),
   ("monaco", "MC"), ("andorra", "AD"), ("jersey", "JE"), ("guernsey", "GG"),
   ("isle of man", "IM")]

/-! ## Pure validators and classifiers -/

/-- Character class `[A-Z]`. -/
def isUpperAlpha (c : Char) : Bool :=
  65 ≤ c.toNat && c.toNat ≤ 90

/-- Character class `[0-9]`. -/
def isDigitCh (c : Char) : Bool :=
  48 ≤ c.toNat && c.toNat ≤ 57

/-- Character class `[A-Z0-9]`. -/
def isUpperAlnum (c : Char) : Bool :=
  isUpperAlpha c || isDigitCh c

/-- `mapCountryToCode` (source lines 2106-2200): exact lookup of the lowered,
trimmed name, falling back to the upper-cased first two characters of the
original string; `null` on a falsy argument. -/
def mapCountryToCode (country : Option String) : Option String :=
  match country with
  | none => none
  | some s =>
    if s == "" then none
    else
      match countryMapTable.lookup (jsTrim (jsToLower s)) with
      | some code => some code
      | none => some (jsToUpper ⟨s.data.take 2⟩)

/-- Interior-dot test used by the email regex: some `.` occurs with a nonempty
prefix and a nonempty suffix inside the given segment. -/
def dotBeforeEnd : List Char → Bool
  | [] => false
  | c :: rest => (c == '.' && !rest.isEmpty) || dotBeforeEnd rest

/-- Test for the source regex `/^[^\s@]+@[^\s@]+\.[^\s@]+$/` (source line 1608):
exactly one `@`, nonempty whitespace-free local part, and a domain part
containing an interior dot. -/
def emailFormatOk (email : String) : Bool :=
  match splitOnChar '@' email.data with
  | [l, r] =>
    !l.isEmpty && l.all (fun c => !isWs c) &&
    !r.isEmpty && r.all (fun c => !isWs c) &&
    (match r with
     | [] => false
     | _ :: t => dotBeforeEnd t)
  | _ => false

/-- `validateEmail` (source lines 1599-1612). -/
def validateEmail (email : String) : EmailResult :=
  match (splitOnChar '@' email.data).get? 1 with
  | some dl =>
    let d := jsToLower ⟨dl⟩
    { valid := emailFormatOk email
      disposable := disposableDomains.any (fun dd => containsSub d dd)
      domain := some d }
  | none =>
    { valid := emailFormatOk email, disposable := false, domain := none }

/-- Strip whitespace and upper-case (the `replace(/\s/g, '').toUpperCase()`
preamble of `validateIBAN` / `validateSWIFT`). -/
def cleanBankString (s : String) : String :=
  jsToUpper ⟨s.data.filter (fun c => !isWs c)⟩

/-- The structural IBAN regex `/^[A-Z]{2}[0-9]{2}[A-Z0-9]{11,30}$/`
(source line 1669). -/
def ibanStructural : List Char → Bool
  | a :: b :: c :: d :: rest =>
    isUpperAlpha a && isUpperAlpha b && isDigitCh c && isDigitCh d &&
    decide (11 ≤ rest.length) && decide (rest.length ≤ 30) && rest.all isUpperAlnum
  | _ => false

/-- `validateIBAN` (source lines 1664-1697, v5.4): structural regex only;
no length-table consultation and no checksum. -/
def validateIBAN (iban : String) : IBANResult :=
  let clean := cleanBankString iban
  if ibanStructural clean.data then
    let cc : String := ⟨clean.data.take 2⟩
    { valid := true, iban := clean, countryCode := cc,
      country := (ibanCountryNames.lookup cc).getD cc }
  else
    { valid := false, iban := clean, countryCode := "", country := "" }

/-- The structural SWIFT regex `/^[A-Z]{4}[A-Z]{2}[A-Z0-9]{2}([A-Z0-9]{3})?$/`
(source line 1708). -/
def swiftStructural : List Char → Bool
  | a :: b :: c :: d :: e :: f :: g :: h :: rest =>
    isUpperAlpha a && isUpperAlpha b && isUpperAlpha c && isUpperAlpha d &&
    isUpperAlpha e && isUpperAlpha f && isUpperAlnum g && isUpperAlnum h &&
    (rest.isEmpty || (decide (rest.length = 3) && rest.all isUpperAlnum))
  | _ => false

/-- `validateSWIFT` (source lines 1704-1720). -/
def validateSWIFT (swift : String) : SWIFTResult :=
  let clean := cleanBankString swift
  if swiftStructural clean.data then
    { valid := true, swift := clean,
      bankCode := ⟨clean.data.take 4⟩,
      countryCode := ⟨(clean.data.drop 4).take 2⟩,
      locationCode := ⟨(clean.data.drop 6).take 2⟩,
      branchCode := if clean.data.length == 11 then ⟨(clean.data.drop 8).take 3⟩ else "XXX" }
  else
    { valid := false, swift := clean, bankCode := "", countryCode := "",
      locationCode := "", branchCode := "" }

/-- `checkJurisdictionRisk` (source lines 2015-2099): substring containment of
each table entry in the lowered, trimmed country name. -/
def checkJurisdictionRisk (country : String) : JRisk :=
  if country == "" then
    { country := "Unknown", fatfBlacklist := false, fatfGreylist := false,
      sanctioned := false, highSecrecy := false, risk := "unknown" }
  else
    let cl := jsTrim (jsToLower country)
    let bl := fatfBlacklistTable.any (fun c => containsSub cl c)
    let gl := fatfGreylistTable.any (fun c => containsSub cl c)
    let sc := sanctionedCountriesTable.any (fun c => containsSub cl c)
    let hs := highSecrecyTable.any (fun c => containsSub cl c)
    { country := country, fatfBlacklist := bl, fatfGreylist := gl,
      sanctioned := sc, highSecrecy := hs,
      risk := if bl then "critical" else if sc then "critical"
              else if gl then "high" else if hs then "medium" else "low" }

/-! ## OpenSanctions result processing (source lines 725-833, v5.4) -/

/-- High-priority (authoritative wanted-criminal) dataset test
(source lines 755-764). -/
def isHighPriorityList (r : Candidate) : Bool :=
  r.datasets.any (fun d =>
    let dl := jsToLower d
    containsSub dl "interpol" || containsSub dl "fbi" || containsSub dl "europol" ||
    containsSub dl "bka" || containsSub dl "most_wanted" || containsSub dl "wanted" ||
    containsSub dl "crime")

/-- Crime/wanted/sanction topic test (source lines 767-769; topics are not
lower-cased in the source). -/
def hasCrimeTopic (r : Candidate) : Bool :=
  r.topics.any (fun t =>
    containsSub t "crime" || containsSub t "wanted" || containsSub t "sanction")

/-- The per-candidate acceptance filter of `checkOpenSanctions`
(source lines 753-784): authoritative lists at any score, crime topics above
0.3, anything else above 0.5 — thresholds in hundredths. -/
def acceptCandidate (r : Candidate) : Bool :=
  if isHighPriorityList r then true
  else if hasCrimeTopic r then decide (r.score > 30)
  else decide (r.score > 50)

/-- Wanted-criminal test over an accepted match (source lines 793-804). -/
def isWantedMatch (m : Candidate) : Bool :=
  m.datasets.any (fun d =>
    let dl := jsToLower d
    containsSub dl "interpol" || containsSub dl "fbi" || containsSub dl "europol" ||
    containsSub dl "wanted" || containsSub dl "most_wanted" || containsSub dl "crime" ||
    containsSub dl "bka") ||
  m.topics.any (fun t => containsSub t "crime" || containsSub t "wanted")

/-- PEP test over an accepted match (source lines 787-790). -/
def isPEPMatch (m : Candidate) : Bool :=
  m.datasets.any (fun d => containsSub (jsToLower d) "pep") ||
  (m.schema == "Person" && m.hasPosition)

/-- `checkOpenSanctions` (source lines 725-833, v5.4) as a function of the
fetch outcome: failures and non-2xx responses yield the no-finding result
(lines 738-741 and 829-832); otherwise the results are filtered by
`acceptCandidate` and summarised. -/
def checkOpenSanctions : OSFetch → OSResult
  | OSFetch.netError => noFindingOS
  | OSFetch.httpNotOk _ => noFindingOS
  | OSFetch.ok results =>
    if results.isEmpty then noFindingOS
    else
      let significantMatches := results.filter acceptCandidate
      if significantMatches.isEmpty then noFindingOS
      else
        { found := true
          matchNames := significantMatches.map (fun m => m.caption)
          lists := dedupFirst (significantMatches.flatMap (fun m => m.datasets))
          isPEP := significantMatches.any isPEPMatch
          isWanted := significantMatches.any isWantedMatch }

/-- The v5.4 Interpol fallback match predicate (source lines 889-897): both the
forename and the surname must contain or be contained in the queried parts
(lower-cased). -/
def interpolFallbackMatches (searchForename searchSurname noticeForename noticeSurname : String) : Bool :=
  let nf := jsToLower noticeForename
  let ns := jsToLower noticeSurname
  let sf := jsToLower searchForename
  let ss := jsToLower searchSurname
  (containsSub nf sf || containsSub sf nf) && (containsSub ns ss || containsSub ss ns)

/-! ## Entity normalization and deduplication (source lines 152-218) -/

/-- `normalizeName` (source line 160): `name?.toLowerCase().trim() || ''`. -/
def normalizeName (name : Option String) : String :=
  match name with
  | none => ""
  | some n => jsTrim (jsToLower n)

/-- JS `role || 'Unknown'`. -/
def roleOrUnknown (r : Option String) : String :=
  match r with
  | some s => if s == "" then "Unknown" else s
  | none => "Unknown"

/-- `addEntityIfNew` (source lines 163-176): skip empty or already-seen
normalized names, otherwise record the normalized name and push the entity
with its trimmed display name. -/
def addEntityIfNew (st : BuildState) (name : Option String) (ty : String)
    (role ctry em : Option String) : BuildState :=
  if normalizeName name == "" || st.seen.contains (normalizeName name) then st
  else
    match name with
    | none => st
    | some nm =>
      { seen := st.seen ++ [normalizeName name]
        entities := st.entities ++ [⟨jsTrim nm, ty, roleOrUnknown role, ctry, em⟩] }

/-- Company-keyword heuristic (source lines 183-187). -/
def looksLikeCompany (c : String) : Bool :=
  companyIndicators.any (fun ind => containsSub (jsToLower c) ind)

/-- The `party.company` block of one `allParties` record
(source lines 185-196): the company field with smart type detection,
guarded by JS truthiness. -/
def partyCompanyStep (st : BuildState) (p : Party) : BuildState :=
  match p.company with
  | some comp =>
    if comp == "" then st
    else addEntityIfNew st (some comp)
      (if looksLikeCompany comp then "company" else "person") p.role p.country p.email
  | none => st

/-- The `party.name` block of one `allParties` record (source lines 198-207):
the person name, only when it is truthy and its normalized form differs from
the company's. -/
def partyNameStep (st : BuildState) (p : Party) : BuildState :=
  match p.name with
  | some nm =>
    if nm != "" && normalizeName (some nm) != normalizeName p.company then
      addEntityIfNew st (some nm) "person" p.role p.country p.email
    else st
  | none => st

/-- Processing of one `allParties` record (source lines 180-208): the company
block, then the name block. -/
def processParty (st : BuildState) (p : Party) : BuildState :=
  partyNameStep (partyCompanyStep st p) p

/-- Fold of all `allParties` records from the empty builder state
(source lines 179-209). -/
def partiesStep (req : RequestBody) : BuildState :=
  match req.allParties with
  | some ps => ps.foldl processParty ⟨[], []⟩
  | none => ⟨[], []⟩

/-- The primary `companyName` block (source lines 211-214). -/
def companyNameStep (req : RequestBody) (st : BuildState) : BuildState :=
  match req.companyName with
  | some cn =>
    if cn == "" then st
    else addEntityIfNew st (some cn) "company" (some "Primary") req.country none
  | none => st

/-- The `representative` block (source lines 216-218). -/
def representativeStep (req : RequestBody) (st : BuildState) : BuildState :=
  match req.representative with
  | some rp =>
    if rp == "" then st
    else addEntityIfNew st (some rp) "person" (some "Representative") req.country none
  | none => st

/-- Build `entitiesToCheck` (source lines 156-218): all parties, then the
primary `companyName`, then the `representative`. -/
def buildEntities (req : RequestBody) : BuildState :=
  representativeStep req (companyNameStep req (partiesStep req))

/-! ## The per-entity accumulation step (source lines 224-510) -/

/-- The net effect of one iteration of the entity loop on the `results`
object: a signed score delta, the pushed strings, the consulted databases, and
the found-flags it raises.  Field order in the lists follows the push order in
the source. -/
structure Contribution where
  delta : Int := 0
  red : List String := []
  pos : List String := []
  dbs : List String := []
  sanctionsFound : Bool := false
  sanctionsMatches : List String := []
  sanctionsLists : List String := []
  pepFound : Bool := false
  interpolFound : Bool := false
  offshoreFound : Bool := false
  worldBankFound : Bool := false
  cslFound : Bool := false
  samFound : Bool := false
  companyRegistryFound : Bool := false
  leiFound : Bool := false
  secFound : Bool := false
  emailVal : Option EmailResult := none
  jur : List JRisk := []

/-- Apply a `Contribution` to the `results` object: add the delta, append the
pushed strings, merge database names through the `includes` guard, and or in
the found-flags. -/
def applyContribution (res : Results) (c : Contribution) : Results :=
  { res with
    riskScore := res.riskScore + c.delta
    redFlags := res.redFlags ++ c.red
    positiveSignals := res.positiveSignals ++ c.pos
    databasesChecked := c.dbs.foldl pushIfAbsent res.databasesChecked
    sanctionsFound := res.sanctionsFound || c.sanctionsFound
    sanctionsMatches := res.sanctionsMatches ++ c.sanctionsMatches
    sanctionsLists := res.sanctionsLists ++ c.sanctionsLists
    pepFound := res.pepFound || c.pepFound
    interpolFound := res.interpolFound || c.interpolFound
    offshoreFound := res.offshoreFound || c.offshoreFound
    worldBankFound := res.worldBankFound || c.worldBankFound
    cslFound := res.cslFound || c.cslFound
    samFound := res.samFound || c.samFound
    companyRegistryFound := res.companyRegistryFound || c.companyRegistryFound
    leiFound := res.leiFound || c.leiFound
    secFound := res.secFound || c.secFound
    emailValidation :=
      match c.emailVal with
      | some v => some v
      | none => res.emailValidation
    jurisdiction := res.jurisdiction ++ c.jur }

/-- The email-and-domain-age sub-block of the entity loop
(source lines 471-509), as a `Contribution` fragment. -/
def emailContribution (env : Env) (em : String) : Contribution :=
  let er := validateEmail em
  let domainLower : Option String := (splitOnChar '@' em.data).get? 1 |>.map (fun l => jsToLower ⟨l⟩)
  let isFree :=
    match domainLower with
    | some d => freeEmailDomains.contains d
    | none => false
  let emailDelta : Int := if er.disposable then 25 else if er.valid && isFree then 5 else 0
  let emailRed : List String :=
    if er.disposable then [s!"⚠️ {em}: Disposable/temporary email detected"]
    else if er.valid && isFree then [s!"⚠️ {em}: Using free email provider (unusual for business)"]
    else []
  let emailPos : List String :=
    if !er.disposable && er.valid && !isFree then [s!"✓ {em}: Corporate email domain"]
    else []
  let domRaw : String := ⟨((splitOnChar '@' em.data).get? 1).getD []⟩
  let domPart : Int × List String × List String :=
    if containsSub em "@" then
      match env.domainAge domRaw with
      | some age =>
        if age < 180 then
          let ds := toString age
          (20, [s!"⚠️ {domRaw}: Very new domain ({ds} days old)"], [])
        else if age < 365 then
          let ms := toString (Int.fdiv age 30)
          (10, [s!"⚠️ {domRaw}: Relatively new domain ({ms} months old)"], [])
        else
          let ys := toString (Int.fdiv age 365)
          (0, [], [s!"✓ {domRaw}: Established domain ({ys}+ years)"])
      | none => (0, [], [])
    else (0, [], [])
  { delta := emailDelta + domPart.1
    red := emailRed ++ domPart.2.1
    pos := emailPos ++ domPart.2.2
    emailVal := some er }

/-- The net `Contribution` of one entity-loop iteration
(source lines 224-510): sanctions/PEP/wanted, Interpol red and yellow notices,
offshore leaks, World Bank, Trade.gov CSL, SAM.gov, the registry checks gated
by the mapped country code, and the email block. -/
def entityContribution (env : Env) (topCountry : Option String) (e : Entity) : Contribution :=
  let os := checkOpenSanctions (env.osFetch e.name)
  let nm := e.name
  let isPerson := e.type == "person"
  let isCompany := e.type == "company"
  let sancDelta : Int :=
    if os.found then (if os.isPEP then 15 else 0) + 50 + (if os.isWanted then 50 else 0) else 0
  let sancRed : List String :=
    if os.found then
      (if os.isPEP then [s!"⚠️ {nm}: Politically Exposed Person (PEP) detected - Enhanced due diligence required"] else []) ++
      [if os.isWanted then s!"🚨 {nm}: WANTED CRIMINAL - Found on FBI/Interpol/Europol database"
       else s!"🚨 {nm}: Potential sanctions match found"]
    else []
  let sancPos : List String :=
    if os.found then [] else [s!"✓ {nm}: No sanctions matches found"]
  let ir := isPerson && env.interpolRed nm
  let off := env.offshoreLeaks nm
  let wb := isCompany && env.worldBankDebarred nm
  let csl := env.tradeGovCSL nm
  let sam := env.samGovExclusions nm
  let yellow := isPerson && env.interpolYellow nm
  let cc := mapCountryToCode (orFalsy e.country topCountry)
  let gbBranch := isCompany && (cc == some "GB" || cc == some "UK")
  let sgBranch := isCompany && cc == some "SG"
  let usBranch := isCompany && cc == some "US"
  let uk := gbBranch && env.ukCompaniesHouse nm
  let sg := sgBranch && env.singaporeACRA nm
  let oc := isCompany && env.openCorporates nm
  let lei := isCompany && env.gleif nm
  let sec := usBranch && env.secEdgar nm
  let emailC : Contribution :=
    match e.email with
    | some em => emailContribution env em
    | none => {}
  { delta :=
      sancDelta + (if ir then 75 else 0) + (if off then 35 else 0) +
      (if wb then 40 else 0) + (if csl then 45 else 0) + (if sam then 45 else 0) +
      (if yellow then 30 else 0) +
      (if uk then -10 else 0) + (if sg then -10 else 0) + (if oc then -5 else 0) +
      (if lei then -10 else 0) + (if sec then -15 else 0) + emailC.delta
    red :=
      sancRed ++
      (if ir then [s!"🚨 {nm}: INTERPOL Red Notice match - WANTED internationally"] else []) ++
      (if off then [s!"🚨 {nm}: Found in ICIJ Offshore Leaks database (Panama Papers/Paradise Papers/Pandora Papers)"] else []) ++
      (if wb then [s!"🚨 {nm}: Found on World Bank Debarred List"] else []) ++
      (if csl then [s!"🚨 {nm}: Found on US Export Control List (Trade.gov CSL)"] else []) ++
      (if sam then [s!"🚨 {nm}: EXCLUDED from US Government contracts (SAM.gov)"] else []) ++
      (if yellow then [s!"⚠️ {nm}: Found in Interpol Yellow Notices (Missing Person)"] else []) ++
      emailC.red
    pos :=
      sancPos ++
      (if uk then [s!"✓ {nm}: Verified in UK Companies House"] else []) ++
      (if sg then [s!"✓ {nm}: Verified in Singapore ACRA"] else []) ++
      (if oc then [s!"✓ {nm}: Found in corporate registry"] else []) ++
      (if lei then [s!"✓ {nm}: Valid LEI found - verified financial entity"] else []) ++
      (if sec then [s!"✓ {nm}: SEC-registered public company"] else []) ++
      emailC.pos
    dbs :=
      ["OpenSanctions"] ++
      (if isPerson then ["Interpol Red Notices"] else []) ++
      ["ICIJ Offshore Leaks"] ++
      (if isCompany then ["World Bank Debarred"] else []) ++
      ["Trade.gov CSL", "SAM.gov Exclusions"] ++
      (if isPerson then ["Interpol Yellow Notices"] else []) ++
      (if gbBranch then ["UK Companies House"] else []) ++
      (if sgBranch then ["Singapore ACRA"] else []) ++
      (if isCompany then ["OpenCorporates", "GLEIF LEI Registry"] else []) ++
      (if usBranch then ["SEC EDGAR"] else [])
    sanctionsFound := os.found
    sanctionsMatches := if os.found then os.matchNames else []
    sanctionsLists := if os.found then os.lists else []
    pepFound := os.found && os.isPEP
    interpolFound := ir
    offshoreFound := off
    worldBankFound := wb
    cslFound := csl
    samFound := sam
    companyRegistryFound := uk || sg || oc
    leiFound := lei
    secFound := sec
    emailVal := emailC.emailVal }

/-- One iteration of the entity loop: apply the entity's contribution. -/
def entityStep (env : Env) (topCountry : Option String) (res : Results) (e : Entity) : Results :=
  applyContribution res (entityContribution env topCountry e)

/-! ## Post-loop steps and finalization (source lines 512-718) -/

/-- IBAN block (source lines 512-531). -/
def ibanStep (req : RequestBody) (res : Results) : Results :=
  match req.iban with
  | none => res
  | some ib =>
    if ib == "" then res
    else
      let r := validateIBAN ib
      let res1 := { res with financialIban := some r }
      if r.valid then
        let ctry := r.country
        let res2 := { res1 with
          positiveSignals := res1.positiveSignals ++ [s!"✓ IBAN validated: {ctry} bank account"] }
        if sanctionedIbanCountries.contains r.countryCode then
          let cc := r.countryCode
          { res2 with
            riskScore := res2.riskScore + 60
            redFlags := res2.redFlags ++ [s!"🚨 IBAN from sanctioned country: {cc}"] }
        else res2
      else
        { res1 with
          riskScore := res1.riskScore + 15
          redFlags := res1.redFlags ++ ["⚠️ Invalid IBAN format provided"] }

/-- SWIFT block (source lines 533-544). -/
def swiftStep (req : RequestBody) (res : Results) : Results :=
  match req.swift with
  | none => res
  | some sw =>
    if sw == "" then res
    else
      let r := validateSWIFT sw
      let res1 := { res with financialSwift := some r }
      if r.valid then
        let bank := r.bankCode
        let cc := r.countryCode
        { res1 with
          positiveSignals := res1.positiveSignals ++ [s!"✓ SWIFT code validated: {bank} ({cc})"] }
      else
        { res1 with
          riskScore := res1.riskScore + 10
          redFlags := res1.redFlags ++ ["⚠️ Invalid SWIFT/BIC format"] }

/-- The per-jurisdiction penalty and flag (the if-chain of source
lines 665-677). -/
def jPenalty (jr : JRisk) (j : String) : Int × List String :=
  if jr.fatfBlacklist then
    (50, [s!"🚨 FATF Blacklisted Country: {j} - Extreme caution required"])
  else if jr.sanctioned then
    (40, [s!"🚨 Comprehensively Sanctioned Country: {j}"])
  else if jr.fatfGreylist then
    (20, [s!"⚠️ FATF Grey List Country: {j} - Enhanced due diligence required"])
  else if jr.highSecrecy then
    (10, [s!"⚠️ High Secrecy Jurisdiction: {j}"])
  else (0, [])

/-- One iteration of the jurisdiction loop (source lines 661-678). -/
def jurisdictionStep (res : Results) (j : String) : Results :=
  let jr := checkJurisdictionRisk j
  let p := jPenalty jr j
  { res with
    jurisdiction := res.jurisdiction ++ [jr]
    riskScore := res.riskScore + p.1
    redFlags := res.redFlags ++ p.2 }

/-- The jurisdiction `Set` (source lines 655-659): entity countries in
insertion order, then the top-level country, deduplicated. -/
def caseJurisdictionList (req : RequestBody) (entities : List Entity) : List String :=
  dedupFirst
    (entities.filterMap (fun e =>
      match e.country with
      | some c => if c == "" then none else some c
      | none => none) ++
     (match req.country with
      | some c => if c == "" then [] else [c]
      | none => []))

/-- One iteration of the financial-instrument loop (source lines 595-605;
input records are the output of `detectFinancialInstruments`). -/
def instPenalty (inst : Instrument) : Int × List String :=
  let t := inst.type
  if inst.risk == "high" then
    (20, [s!"⚠️ High-risk financial instrument: {t}"])
  else if inst.risk == "medium" then
    (10, [s!"⚠️ {t} mentioned - verify authenticity"])
  else (0, [])

/-- Apply one financial-instrument record to the results. -/
def instrumentStep (res : Results) (inst : Instrument) : Results :=
  let p := instPenalty inst
  { res with
    riskScore := res.riskScore + p.1
    redFlags := res.redFlags ++ p.2 }

/-- Signal deduplication before returning (source lines 684-686). -/
def dedupSignals (res : Results) : Results :=
  { res with
    positiveSignals := dedupFirst res.positiveSignals
    redFlags := dedupFirst res.redFlags
    databasesChecked := dedupFirst res.databasesChecked }

/-- Final score clamp and risk-level bands (source lines 692-704, v5.4; no
override follows the bands in this version). -/
def finalize (res : Results) : Results :=
  let s : Int := min 100 (max 0 (100 - res.riskScore))
  { res with
    riskScore := s
    riskLevel :=
      if s ≥ 86 then "GREEN"
      else if s ≥ 60 then "YELLOW"
      else if s ≥ 31 then "RED"
      else "BLACK" }

/-- Accumulation for one accepted request: the entity loop, the IBAN and SWIFT
blocks, then the jurisdiction loop. -/
def accumulateCase (req : RequestBody) (env : Env) : Results :=
  let ents := (buildEntities req).entities
  let r1 := ents.foldl (entityStep env req.country) initResults
  let r2 := ibanStep req r1
  let r3 := swiftStep req r2
  (caseJurisdictionList req ents).foldl jurisdictionStep r3

/-- The handler (source lines 19-718) on the embedded fragment: request
validation (source line 38), accumulation, signal deduplication, and
finalization.  `none` models the 400 response. -/
def runDiligence (req : RequestBody) (env : Env) : Option Results :=
  if !truthyOpt req.companyName && !truthyOpt req.email &&
     (match req.allParties with
      | none => true
      | some ps => ps.isEmpty) then
    none
  else
    some (finalize (dedupSignals (accumulateCase req env)))

/-! ## Projection helpers for stating claims about an optional verdict -/

/-- Risk level of an optional verdict. -/
def levelOf : Option Results → Option String
  | none => none
  | some r => some r.riskLevel

/-- Risk score of an optional verdict. -/
def scoreOf : Option Results → Option Int
  | none => none
  | some r => some r.riskScore

/-- Sanctions-found flag of an optional verdict. -/
def sanctionsFoundOf : Option Results → Option Bool
  | none => none
  | some r => some r.sanctionsFound

/-- Red flags of an optional verdict. -/
def redFlagsOf : Option Results → List String
  | none => []
  | some r => r.redFlags

/-- Membership of a specific red flag in an optional verdict. -/
def hasFlag (o : Option Results) (s : String) : Bool :=
  (redFlagsOf o).contains s

/-- Membership of a database name in an optional verdict's `databasesChecked`. -/
def hasDb (o : Option Results) (s : String) : Bool :=
  match o with
  | none => false
  | some r => r.databasesChecked.contains s

/-- Score bounds for an optional verdict (vacuous for a rejected request). -/
def scoreInBounds : Option Results → Prop
  | none => True
  | some r => 0 ≤ r.riskScore ∧ r.riskScore ≤ 100

/-- Presence of `"OpenSanctions"` in `databasesChecked` (vacuous for a
rejected request). -/
def listsOpenSanctionsDb : Option Results → Prop
  | none => True
  | some r => "OpenSanctions" ∈ r.databasesChecked

/-! ## Definitions following the wording of the specification
(used to compare spec statements against the code) -/

/-- Modelled from the spec (claim C5, as stated): a candidate with a numeric
confidence is accepted iff its confidence reaches the 0.5 baseline, or it
reaches a lower threshold `t` (spec range 0.2-0.3) and its tags mark an
authoritative critical source.  Thresholds in hundredths. -/
def specFuzzyAccept (t : Int) (r : Candidate) : Prop :=
  50 ≤ r.score ∨ (isHighPriorityList r = true ∧ t ≤ r.score)

/-- The acceptance rule the v5.4 source actually implements, written as the
amended claim words it: authoritative-critical tags accepted at any
confidence, crime/wanted/sanction topics above 0.3 (strict), otherwise above
0.5 (strict). -/
def specAcceptAmended (r : Candidate) : Prop :=
  isHighPriorityList r = true ∨
  (hasCrimeTopic r = true ∧ 30 < r.score) ∨
  (isHighPriorityList r = false ∧ hasCrimeTopic r = false ∧ 50 < r.score)

/-- The amended wording of the name-only (Interpol fallback) rule: each of
forename and surname must contain or be contained in the queried part,
case-insensitively. -/
def specFallbackAmended (sf ss nf ns : String) : Prop :=
  (containsSub (jsToLower nf) (jsToLower sf) = true ∨
   containsSub (jsToLower sf) (jsToLower nf) = true) ∧
  (containsSub (jsToLower ns) (jsToLower ss) = true ∨
   containsSub (jsToLower ss) (jsToLower ns) = true)

/-- Modelled from the spec (claim C3): the ISO 13616 mod-97 value of an IBAN
character list (initial four characters moved to the end, letters mapped to
10..35, the resulting digit string read modulo 97). -/
def ibanMod97 (l : List Char) : Nat :=
  (l.drop 4 ++ l.take 4).foldl
    (fun acc c =>
      if isDigitCh c then (acc * 10 + (c.toNat - 48)) % 97
      else (acc * 100 + (c.toNat - 55)) % 97)
    0

/-- Modelled from the spec (claim C3): a validly-constructed IBAN — correct
structure, the exact length that the source's own `ibanLengths` table assigns
to its country, and mod-97 checksum 1. -/
def specWellFormedIBAN (s : String) : Bool :=
  match (cleanBankString s).data with
  | a :: b :: c :: d :: rest =>
    isUpperAlpha a && isUpperAlpha b && isDigitCh c && isDigitCh d &&
    rest.all isUpperAlnum &&
    (match ibanLengths.lookup (⟨[a, b]⟩ : String) with
     | some n => decide (rest.length + 4 = n)
     | none => false) &&
    decide (ibanMod97 ((cleanBankString s).data) = 1)
  | _ => false

/-- Two strings of equal length differing in exactly one position. -/
def oneCharDiff (a b : String) : Bool :=
  decide (a.data.length = b.data.length) &&
  ((a.data.zip b.data).filter (fun p => p.1 != p.2)).length == 1

/-- The nonempty normalized name (if any) that the company block of one party
record records in `seenNames`. -/
def companyNormNames (p : Party) : List String :=
  match p.company with
  | some c => if normalizeName (some c) == "" then [] else [normalizeName (some c)]
  | none => []

/-- The nonempty normalized name (if any) that the name block of one party
record records in `seenNames`. -/
def nameNormNames (p : Party) : List String :=
  match p.name with
  | some nm =>
    if nm != "" && normalizeName (some nm) != normalizeName p.company &&
       normalizeName (some nm) != "" then
      [normalizeName (some nm)]
    else []
  | none => []

/-- The nonempty normalized names that one party record submits to
`addEntityIfNew`. -/
def partyNormNames (p : Party) : List String :=
  companyNormNames p ++ nameNormNames p

/-- All nonempty normalized names submitted by a party list. -/
def partiesNormNames (ps : List Party) : List String :=
  ps.flatMap partyNormNames

/-- Claim-C10 hypothesis: the lowered, trimmed country name contains `usa` or
`delaware`. -/
def usaOrDelaware (j : String) : Bool :=
  containsSub (jsTrim (jsToLower j)) "usa" || containsSub (jsTrim (jsToLower j)) "delaware"

/-- Claim-C10 hypothesis: no blacklist / sanctioned / greylist table entry is
contained in the lowered, trimmed country name. -/
def noHigherTier (j : String) : Bool :=
  !(fatfBlacklistTable.any (fun c => containsSub (jsTrim (jsToLower j)) c)) &&
  !(sanctionedCountriesTable.any (fun c => containsSub (jsTrim (jsToLower j)) c)) &&
  !(fatfGreylistTable.any (fun c => containsSub (jsTrim (jsToLower j)) c))

/-- Whether a request yields at least one entity to check. -/
def entitiesNonempty (req : RequestBody) : Bool :=
  !(buildEntities req).entities.isEmpty

/-! ## Concrete test inputs -/

/-- A request consisting of a single company party registered in the UK. -/
def reqC1 : RequestBody :=
  { companyName := none, email := none, country := none, representative := none
    allParties := some [⟨some "Acme Trading Ltd", none, some "buyer", some "UK", none⟩]
    iban := none, swift := none }

/-- Provider outcomes for `reqC1`: a confident (0.70) plain sanctions hit for
the company — no wanted/crime tags — and successful UK Companies House,
OpenCorporates and GLEIF verifications. -/
def envC1 : Env :=
  { osFetch := fun n =>
      if n == "Acme Trading Ltd" then
        OSFetch.ok [⟨"ACME TRADING LTD", 70, "Company", ["eu_fsf"], [], false⟩]
      else OSFetch.netError
    interpolRed := fun _ => false
    offshoreLeaks := fun _ => false
    worldBankDebarred := fun _ => false
    tradeGovCSL := fun _ => false
    samGovExclusions := fun _ => false
    interpolYellow := fun _ => false
    ukCompaniesHouse := fun n => n == "Acme Trading Ltd"
    singaporeACRA := fun _ => false
    openCorporates := fun n => n == "Acme Trading Ltd"
    gleif := fun n => n == "Acme Trading Ltd"
    secEdgar := fun _ => false
    domainAge := fun _ => none }

/-- A request carrying only a disposable email address. -/
def reqC4 : RequestBody :=
  { companyName := none, email := some "foo@mailinator.com", country := none
    representative := none, allParties := none, iban := none, swift := none }

/-- A request carrying only a company name. -/
def reqC8 : RequestBody :=
  { companyName := some "Acme Trading Ltd", email := none, country := none
    representative := none, allParties := none, iban := none, swift := none }

/-- An environment in which every provider fails (the OpenSanctions fetch
throws; every other provider reports nothing). -/
def envAllErr : Env :=
  { osFetch := fun _ => OSFetch.netError
    interpolRed := fun _ => false
    offshoreLeaks := fun _ => false
    worldBankDebarred := fun _ => false
    tradeGovCSL := fun _ => false
    samGovExclusions := fun _ => false
    interpolYellow := fun _ => false
    ukCompaniesHouse := fun _ => false
    singaporeACRA := fun _ => false
    openCorporates := fun _ => false
    gleif := fun _ => false
    secEdgar := fun _ => false
    domainAge := fun _ => none }

/-- A candidate on an FBI most-wanted dataset with confidence 0.10. -/
def candFBILow : Candidate :=
  ⟨"John Doe", 10, "Person", ["us_fbi_most_wanted"], [], false⟩

/-- A generic candidate with confidence exactly 0.50 and neutral tags. -/
def candHalf : Candidate :=
  ⟨"Plain Corp", 50, "Company", ["generic_registry"], [], false⟩

/-- A standard valid German IBAN (correct length and mod-97 checksum). -/
def ibanGood : String := "DE89370400440532013000"

/-- The same IBAN with its final digit changed, breaking the checksum. -/
def ibanBad : String := "DE89370400440532013001"

/-- The normalized names of a produced entity list (the claim's
`normalizedName = lowercase(trim(name))`, computed by the code as
`trim(lowercase(name))`; the two agree — see `normalizeName_jsTrim`). -/
def entityNorms (l : List Entity) : List String :=
  l.map (fun e => normalizeName (some e.name))

/-- Invariant of the entity builder: every produced entity has a nonempty
normalized name recorded in `seenNames`, and no two produced entities share a
normalized name. -/
def BuildInv (st : BuildState) : Prop :=
  (∀ e ∈ st.entities, normalizeName (some e.name) ≠ "" ∧ normalizeName (some e.name) ∈ st.seen) ∧
  (entityNorms st.entities).Nodup

/-- Fold explicit lists of entity, jurisdiction and instrument signals into
the accumulator (the three signal loops of the handler, applied to a given
starting state). -/
def applySignalLists (env : Env) (tc : Option String) (res : Results)
    (es : List Entity) (js : List String) (ins : List Instrument) : Results :=
  ins.foldl instrumentStep (js.foldl jurisdictionStep (es.foldl (entityStep env tc) res))

/-- A concrete company entity (commutativity witness data). -/
def entityW1 : Entity := ⟨"Acme Trading Ltd", "company", "buyer", some "UK", none⟩

/-- A concrete person entity (commutativity witness data). -/
def entityW2 : Entity := ⟨"John Smith", "person", "seller", none, none⟩

/-- A concrete high-risk instrument (commutativity witness data). -/
def instW : Instrument := ⟨"MT760", "high"⟩

/-! ## Helper lemmas -/

theorem contains_iff_mem (l : List String) (x : String) : l.contains x = true ↔ x ∈ l := by
  simp [List.contains, List.elem_iff]

theorem mem_pushIfAbsent (l : List String) (y x : String) :
    x ∈ pushIfAbsent l y ↔ x ∈ l ∨ x = y := by
  unfold pushIfAbsent
  by_cases h : l.contains y
  · rw [if_pos h]
    have hy : y ∈ l := (contains_iff_mem l y).mp h
    constructor
    · exact fun hx => Or.inl hx
    · rintro (hx | rfl)
      · exact hx
      · exact hy
  · rw [if_neg h]
    simp

theorem mem_foldl_pushIfAbsent (l : List String) (acc : List String) (x : String) :
    x ∈ l.foldl pushIfAbsent acc ↔ x ∈ acc ∨ x ∈ l := by
  induction l generalizing acc with
  | nil => simp
  | cons y t ih =>
    simp only [List.foldl_cons, ih, mem_pushIfAbsent, List.mem_cons]
    tauto

theorem mem_dedupFirst (l : List String) (x : String) : x ∈ dedupFirst l ↔ x ∈ l := by
  unfold dedupFirst
  rw [mem_foldl_pushIfAbsent]
  simp

theorem dedupFirst_toFinset (l : List String) : (dedupFirst l).toFinset = l.toFinset := by
  apply Finset.ext
  intro a
  simp [List.mem_toFinset, mem_dedupFirst]

theorem lookup_mem {β : Type} (l : List (String × β)) (k : String) (v : β)
    (h : l.lookup k = some v) : (k, v) ∈ l := by
  induction l with
  | nil => simp [List.lookup] at h
  | cons p t ih =>
    rw [List.lookup] at h
    split at h
    · next heq =>
      have hk : k = p.1 := eq_of_beq heq
      have hv : v = p.2 := by
        injection h with h2
        exact h2.symm
      rw [hk, hv, Prod.mk.eta]
      exact List.mem_cons_self p t
    · right
      exact ih h

theorem toNat_ofNatAux (n : Nat) (h : n.isValidChar) : (Char.ofNatAux n h).toNat = n := rfl

theorem toNat_ofNat_valid (n : Nat) (h : n.isValidChar) : (Char.ofNat n).toNat = n := by
  simp only [Char.ofNat, dif_pos h]
  exact toNat_ofNatAux n h

theorem isWs_toLower (c : Char) : isWs c.toLower = isWs c := by
  have hdef : c.toLower = if c.toNat ≥ 65 ∧ c.toNat ≤ 90 then Char.ofNat (c.toNat + 32) else c := by
    simp [Char.toLower]
  rw [hdef]
  split
  · next h =>
    have hv : (c.toNat + 32).isValidChar := by
      left
      have : c.toNat ≤ 90 := h.2
      omega
    have h2 : (Char.ofNat (c.toNat + 32)).toNat = c.toNat + 32 := toNat_ofNat_valid _ hv
    simp only [isWs, h2]
    have h1 : 65 ≤ c.toNat := h.1
    have h90 : c.toNat ≤ 90 := h.2
    apply Bool.eq_iff_iff.mpr
    simp only [Bool.or_eq_true, beq_iff_eq]
    omega
  · rfl

theorem dropWhile_map (f : Char → Char) (p : Char → Bool) (l : List Char) :
    (l.map f).dropWhile p = (l.dropWhile (fun a => p (f a))).map f := by
  induction l with
  | nil => rfl
  | cons a t ih =>
    by_cases h : p (f a)
    · simp [List.dropWhile_cons, h, ih]
    · simp [List.dropWhile_cons, h]

theorem dropWhile_isWs_map_toLower (l : List Char) :
    (l.map Char.toLower).dropWhile isWs = (l.dropWhile isWs).map Char.toLower := by
  rw [dropWhile_map]
  have : (fun a => isWs (Char.toLower a)) = isWs := funext isWs_toLower
  rw [this]

theorem trimLeftL_map_toLower (l : List Char) :
    trimLeftL (l.map Char.toLower) = (trimLeftL l).map Char.toLower := by
  unfold trimLeftL
  exact dropWhile_isWs_map_toLower l

theorem trimRightL_map_toLower (l : List Char) :
    trimRightL (l.map Char.toLower) = (trimRightL l).map Char.toLower := by
  unfold trimRightL
  rw [← List.map_reverse, dropWhile_isWs_map_toLower, List.map_reverse]

theorem trimBothL_map_toLower (l : List Char) :
    trimBothL (l.map Char.toLower) = (trimBothL l).map Char.toLower := by
  unfold trimBothL
  rw [trimLeftL_map_toLower, trimRightL_map_toLower]

theorem trimLeftL_idem (l : List Char) : trimLeftL (trimLeftL l) = trimLeftL l :=
  List.dropWhile_idempotent isWs l

theorem trimRightL_idem (l : List Char) : trimRightL (trimRightL l) = trimRightL l := by
  unfold trimRightL
  rw [List.reverse_reverse, List.dropWhile_idempotent]

theorem trimRightL_prefix (l : List Char) : trimRightL l <+: l := by
  unfold trimRightL
  apply List.reverse_suffix.mp
  rw [List.reverse_reverse]
  exact List.dropWhile_suffix isWs

theorem trimLeftL_of_head_not_ws (l : List Char) (h : trimLeftL l = l) :
    trimLeftL (trimRightL l) = trimRightL l := by
  rcases hr : trimRightL l with _ | ⟨c, t⟩
  · rfl
  · have hpre : trimRightL l <+: l := trimRightL_prefix l
    rw [hr] at hpre
    obtain ⟨r, hrr⟩ := hpre
    have hl : l = c :: (t ++ r) := by
      rw [← hrr]
      simp
    have hc : isWs c = false := by
      cases hw : isWs c
      · rfl
      · exfalso
        rw [hl] at h
        unfold trimLeftL at h
        rw [List.dropWhile_cons, if_pos hw] at h
        obtain ⟨s, hs⟩ := List.dropWhile_suffix (l := t ++ r) isWs
        rw [h] at hs
        have hlen := congrArg List.length hs
        simp only [List.length_append, List.length_cons] at hlen
        omega
    unfold trimLeftL
    rw [List.dropWhile_cons, hc]
    simp

theorem trimBothL_idem (l : List Char) : trimBothL (trimBothL l) = trimBothL l := by
  unfold trimBothL
  rw [trimLeftL_of_head_not_ws (trimLeftL l) (trimLeftL_idem l), trimRightL_idem]

theorem normalizeName_jsTrim (nm : String) :
    normalizeName (some (jsTrim nm)) = normalizeName (some nm) := by
  show jsTrim (jsToLower (jsTrim nm)) = jsTrim (jsToLower nm)
  unfold jsTrim jsToLower
  apply congrArg String.mk
  show trimBothL ((trimBothL nm.data).map Char.toLower) = trimBothL (nm.data.map Char.toLower)
  rw [← trimBothL_map_toLower]
  exact trimBothL_idem _

theorem addEntity_seen_iff (st : BuildState) (name : Option String) (ty : String)
    (role ctry em : Option String) (x : String) :
    x ∈ (addEntityIfNew st name ty role ctry em).seen ↔
      x ∈ st.seen ∨ (normalizeName name ≠ "" ∧ x = normalizeName name) := by
  unfold addEntityIfNew
  by_cases h1 : (normalizeName name == "" || st.seen.contains (normalizeName name)) = true
  · rw [if_pos h1]
    rcases Bool.or_eq_true_iff.mp h1 with h | h
    · have hn : normalizeName name = "" := eq_of_beq h
      constructor
      · exact fun hx => Or.inl hx
      · rintro (hx | ⟨hne, _⟩)
        · exact hx
        · exact absurd hn hne
    · have hn : normalizeName name ∈ st.seen := (contains_iff_mem _ _).mp h
      constructor
      · exact fun hx => Or.inl hx
      · rintro (hx | ⟨_, rfl⟩)
        · exact hx
        · exact hn
  · rw [if_neg h1]
    have hcomb := Bool.or_eq_false_iff.mp (Bool.not_eq_true _ |>.mp h1)
    have hne : normalizeName name ≠ "" := by
      intro hc
      have : (normalizeName name == "") = true := beq_iff_eq.mpr hc
      rw [this] at hcomb
      exact absurd hcomb.1 (by simp)
    rcases name with _ | nm
    · exact absurd rfl hne
    · show x ∈ st.seen ++ [normalizeName (some nm)] ↔ _
      rw [List.mem_append, List.mem_singleton]
      constructor
      · rintro (hx | rfl)
        · exact Or.inl hx
        · exact Or.inr ⟨hne, rfl⟩
      · rintro (hx | ⟨_, rfl⟩)
        · exact Or.inl hx
        · exact Or.inr rfl

theorem addEntity_noop (st : BuildState) (name : Option String) (ty : String)
    (role ctry em : Option String)
    (h : normalizeName name = "" ∨ normalizeName name ∈ st.seen) :
    addEntityIfNew st name ty role ctry em = st := by
  unfold addEntityIfNew
  have hcond : (normalizeName name == "" || st.seen.contains (normalizeName name)) = true := by
    rcases h with h | h
    · exact Bool.or_eq_true_iff.mpr (Or.inl (beq_iff_eq.mpr h))
    · exact Bool.or_eq_true_iff.mpr (Or.inr ((contains_iff_mem _ _).mpr h))
  rw [if_pos hcond]

theorem normalizeName_some_empty : normalizeName (some "") = "" := rfl

theorem normalizeName_none : normalizeName none = "" := rfl


theorem companyStep_seen_iff (st : BuildState) (p : Party) (x : String) :
    x ∈ (partyCompanyStep st p).seen ↔ x ∈ st.seen ∨ x ∈ companyNormNames p := by
  rcases hc : p.company with _ | comp
  · simp [partyCompanyStep, companyNormNames, hc]
  · by_cases hcomp : comp = ""
    · subst hcomp
      simp [partyCompanyStep, companyNormNames, hc, normalizeName_some_empty]
    · by_cases hnz : normalizeName (some comp) = ""
      · simp [partyCompanyStep, companyNormNames, hc, hcomp, hnz, addEntity_seen_iff]
      · simp [partyCompanyStep, companyNormNames, hc, hcomp, hnz, addEntity_seen_iff]
        try tauto

theorem nameStep_seen_iff (st : BuildState) (p : Party) (x : String) :
    x ∈ (partyNameStep st p).seen ↔ x ∈ st.seen ∨ x ∈ nameNormNames p := by
  rcases hn : p.name with _ | nm
  · simp [partyNameStep, nameNormNames, hn]
  · by_cases h1 : nm = ""
    · simp [partyNameStep, nameNormNames, hn, h1]
    · by_cases h2 : normalizeName (some nm) = normalizeName p.company
      · simp [partyNameStep, nameNormNames, hn, h1, h2]
      · by_cases h3 : normalizeName (some nm) = ""
        · have hcond : (nm != "" && normalizeName (some nm) != normalizeName p.company) = true := by
            simp [h1, h2]
          simp only [partyNameStep, hn, hcond, if_true, nameNormNames]
          rw [addEntity_noop st (some nm) _ _ _ _ (Or.inl h3)]
          simp [h1, h2, h3]
        · have hcond : (nm != "" && normalizeName (some nm) != normalizeName p.company) = true := by
            simp [h1, h2]
          simp only [partyNameStep, hn, hcond, if_true, nameNormNames]
          rw [addEntity_seen_iff]
          simp [h1, h2, h3]
          try tauto

theorem processParty_seen_iff (st : BuildState) (p : Party) (x : String) :
    x ∈ (processParty st p).seen ↔ x ∈ st.seen ∨ x ∈ partyNormNames p := by
  unfold processParty partyNormNames
  rw [nameStep_seen_iff, companyStep_seen_iff, List.mem_append]
  tauto

theorem companyStep_noop (st : BuildState) (p : Party)
    (h : ∀ x ∈ companyNormNames p, x ∈ st.seen) :
    partyCompanyStep st p = st := by
  rcases hc : p.company with _ | comp
  · simp [partyCompanyStep, hc]
  · by_cases hcomp : comp = ""
    · simp [partyCompanyStep, hc, hcomp]
    · by_cases hnz : normalizeName (some comp) = ""
      · simp only [partyCompanyStep, hc]
        rw [if_neg (by simp [hcomp])]
        exact addEntity_noop _ _ _ _ _ _ (Or.inl hnz)
      · have hmem : normalizeName (some comp) ∈ st.seen := by
          apply h
          simp [companyNormNames, hc, hnz]
        simp only [partyCompanyStep, hc]
        rw [if_neg (by simp [hcomp])]
        exact addEntity_noop _ _ _ _ _ _ (Or.inr hmem)

theorem nameStep_noop (st : BuildState) (p : Party)
    (h : ∀ x ∈ nameNormNames p, x ∈ st.seen) :
    partyNameStep st p = st := by
  rcases hn : p.name with _ | nm
  · simp [partyNameStep, hn]
  · by_cases hcond : (nm != "" && normalizeName (some nm) != normalizeName p.company) = true
    · by_cases h3 : normalizeName (some nm) = ""
      · simp only [partyNameStep, hn, hcond, if_true]
        exact addEntity_noop _ _ _ _ _ _ (Or.inl h3)
      · have hmem : normalizeName (some nm) ∈ st.seen := by
          apply h
          simp only [nameNormNames, hn]
          rw [if_pos (by simp_all)]
          simp
        simp only [partyNameStep, hn, hcond, if_true]
        exact addEntity_noop _ _ _ _ _ _ (Or.inr hmem)
    · simp only [partyNameStep, hn]
      rw [if_neg hcond]

theorem processParty_noop (st : BuildState) (p : Party)
    (h : ∀ x ∈ partyNormNames p, x ∈ st.seen) :
    processParty st p = st := by
  unfold processParty
  have h1 : partyCompanyStep st p = st := by
    apply companyStep_noop
    intro x hx
    exact h x (by simp [partyNormNames, hx])
  rw [h1]
  apply nameStep_noop
  intro x hx
  exact h x (by simp [partyNormNames, hx])

theorem foldl_processParty_seen (ps : List Party) (st : BuildState) (x : String) :
    x ∈ (ps.foldl processParty st).seen ↔ x ∈ st.seen ∨ x ∈ partiesNormNames ps := by
  induction ps generalizing st with
  | nil => simp [partiesNormNames]
  | cons p t ih =>
    simp only [List.foldl_cons, ih, processParty_seen_iff, partiesNormNames,
      List.flatMap_cons, List.mem_append]
    tauto

theorem foldl_processParty_noop (qs : List Party) (st : BuildState)
    (h : ∀ x ∈ partiesNormNames qs, x ∈ st.seen) :
    qs.foldl processParty st = st := by
  induction qs with
  | nil => rfl
  | cons p t ih =>
    have hp : processParty st p = st := by
      apply processParty_noop
      intro x hx
      exact h x (by simp [partiesNormNames, List.flatMap_cons, hx])
    rw [List.foldl_cons, hp]
    apply ih
    intro x hx
    exact h x (by simp [partiesNormNames, List.flatMap_cons]; right; simpa [partiesNormNames] using hx)

theorem addEntity_inv (st : BuildState) (name : Option String) (ty : String)
    (role ctry em : Option String) (h : BuildInv st) :
    BuildInv (addEntityIfNew st name ty role ctry em) := by
  unfold addEntityIfNew
  by_cases h1 : (normalizeName name == "" || st.seen.contains (normalizeName name)) = true
  · rw [if_pos h1]
    exact h
  · rw [if_neg h1]
    have hcomb := Bool.or_eq_false_iff.mp (Bool.not_eq_true _ |>.mp h1)
    have hne : normalizeName name ≠ "" := by
      intro hc
      have : (normalizeName name == "") = true := beq_iff_eq.mpr hc
      rw [this] at hcomb
      exact absurd hcomb.1 (by simp)
    have hnotseen : normalizeName name ∉ st.seen := by
      intro hc
      have : st.seen.contains (normalizeName name) = true := (contains_iff_mem _ _).mpr hc
      rw [this] at hcomb
      exact absurd hcomb.2 (by simp)
    rcases name with _ | nm
    · exact h
    · constructor
      · intro e he
        rcases List.mem_append.mp he with he | he
        · obtain ⟨hn1, hn2⟩ := h.1 e he
          exact ⟨hn1, List.mem_append.mpr (Or.inl hn2)⟩
        · rw [List.mem_singleton] at he
          subst he
          show normalizeName (some (jsTrim nm)) ≠ "" ∧ _
          rw [normalizeName_jsTrim]
          exact ⟨hne, List.mem_append.mpr (Or.inr (List.mem_singleton.mpr rfl))⟩
      · show (entityNorms (st.entities ++ [_])).Nodup
        unfold entityNorms
        rw [List.map_append]
        rw [List.nodup_append]
        refine ⟨h.2, by simp, ?_⟩
        intro a ha hb
        simp only [List.map_cons, List.map_nil, List.mem_singleton] at hb
        rw [normalizeName_jsTrim] at hb
        subst hb
        have := h.1
        obtain ⟨e, he, hee⟩ := List.mem_map.mp ha
        obtain ⟨_, hseen⟩ := this e he
        rw [hee] at hseen
        exact hnotseen hseen

theorem companyStep_inv (st : BuildState) (p : Party) (h : BuildInv st) :
    BuildInv (partyCompanyStep st p) := by
  unfold partyCompanyStep
  split
  · split
    · exact h
    · exact addEntity_inv _ _ _ _ _ _ h
  · exact h

theorem nameStep_inv (st : BuildState) (p : Party) (h : BuildInv st) :
    BuildInv (partyNameStep st p) := by
  unfold partyNameStep
  split
  · split
    · exact addEntity_inv _ _ _ _ _ _ h
    · exact h
  · exact h

theorem processParty_inv (st : BuildState) (p : Party) (h : BuildInv st) :
    BuildInv (processParty st p) :=
  nameStep_inv _ _ (companyStep_inv _ _ h)

theorem foldl_processParty_inv (ps : List Party) (st : BuildState) (h : BuildInv st) :
    BuildInv (ps.foldl processParty st) := by
  induction ps generalizing st with
  | nil => exact h
  | cons p t ih => exact ih _ (processParty_inv _ _ h)

theorem partiesStep_inv (req : RequestBody) : BuildInv (partiesStep req) := by
  have h0 : BuildInv (⟨[], []⟩ : BuildState) := by
    constructor
    · intro e he
      simp at he
    · simp [entityNorms]
  unfold partiesStep
  split
  · exact foldl_processParty_inv _ _ h0
  · exact h0

theorem companyNameStep_inv (req : RequestBody) (st : BuildState) (h : BuildInv st) :
    BuildInv (companyNameStep req st) := by
  unfold companyNameStep
  split
  · split
    · exact h
    · exact addEntity_inv _ _ _ _ _ _ h
  · exact h

theorem representativeStep_inv (req : RequestBody) (st : BuildState) (h : BuildInv st) :
    BuildInv (representativeStep req st) := by
  unfold representativeStep
  split
  · split
    · exact h
    · exact addEntity_inv _ _ _ _ _ _ h
  · exact h

theorem buildEntities_inv (req : RequestBody) : BuildInv (buildEntities req) :=
  representativeStep_inv _ _ (companyNameStep_inv _ _ (partiesStep_inv req))

theorem buildEntities_absorb (ps qs : List Party) (cn em ctry rep ib sw : Option String)
    (h : partiesNormNames qs ⊆ partiesNormNames ps) :
    buildEntities ⟨cn, em, ctry, rep, some (ps ++ qs), ib, sw⟩ =
    buildEntities ⟨cn, em, ctry, rep, some ps, ib, sw⟩ := by
  unfold buildEntities
  have hps : partiesStep ⟨cn, em, ctry, rep, some (ps ++ qs), ib, sw⟩ =
      partiesStep ⟨cn, em, ctry, rep, some ps, ib, sw⟩ := by
    unfold partiesStep
    dsimp only
    rw [List.foldl_append]
    apply foldl_processParty_noop
    intro x hx
    rw [foldl_processParty_seen]
    exact Or.inr (h hx)
  rw [hps]
  rfl

/-- Claim C6: entity normalization is idempotent and deduplicating.  Appending
party records whose nonempty normalized names were all already submitted — in
particular a duplicate of the whole party list, or case/whitespace variants of
its names — leaves the ordered entity set identical; no two produced entities
share a normalized name (first occurrence wins); and empty or whitespace-only
names are silently omitted (no produced entity has an empty normalized name). -/
theorem C6_normalizer_idempotent (ps qs : List Party) (cn em ctry rep ib sw : Option String)
    (h : partiesNormNames qs ⊆ partiesNormNames ps) :
    buildEntities ⟨cn, em, ctry, rep, some (ps ++ qs), ib, sw⟩ =
      buildEntities ⟨cn, em, ctry, rep, some ps, ib, sw⟩ ∧
    (entityNorms (buildEntities ⟨cn, em, ctry, rep, some ps, ib, sw⟩).entities).Nodup ∧
    "" ∉ entityNorms (buildEntities ⟨cn, em, ctry, rep, some ps, ib, sw⟩).entities := by
  refine ⟨buildEntities_absorb ps qs cn em ctry rep ib sw h, (buildEntities_inv _).2, ?_⟩
  intro hc
  obtain ⟨e, he, hee⟩ := List.mem_map.mp hc
  exact ((buildEntities_inv _).1 e he).1 hee

/-- Witness for C6 at a concrete case: a company party plus a whitespace-only
name, duplicated by a case/whitespace variant of the company. -/
theorem C6_normalizer_idempotent_witness :
    partiesNormNames [(⟨some " ACME LTD ", none, none, none, none⟩ : Party)] ⊆
      partiesNormNames [⟨some "Acme Ltd", none, some "buyer", some "UK", none⟩,
                        ⟨none, some "  ", none, none, none⟩] ∧
    (buildEntities ⟨none, none, none, none,
        some ([⟨some "Acme Ltd", none, some "buyer", some "UK", none⟩,
               ⟨none, some "  ", none, none, none⟩] ++
              [⟨some " ACME LTD ", none, none, none, none⟩]), none, none⟩ =
      buildEntities ⟨none, none, none, none,
        some [⟨some "Acme Ltd", none, some "buyer", some "UK", none⟩,
              ⟨none, some "  ", none, none, none⟩], none, none⟩ ∧
    (entityNorms (buildEntities ⟨none, none, none, none,
        some [⟨some "Acme Ltd", none, some "buyer", some "UK", none⟩,
              ⟨none, some "  ", none, none, none⟩], none, none⟩).entities).Nodup ∧
    "" ∉ entityNorms (buildEntities ⟨none, none, none, none,
        some [⟨some "Acme Ltd", none, some "buyer", some "UK", none⟩,
              ⟨none, some "  ", none, none, none⟩], none, none⟩).entities) :=
  ⟨by decide,
   C6_normalizer_idempotent
     [⟨some "Acme Ltd", none, some "buyer", some "UK", none⟩,
      ⟨none, some "  ", none, none, none⟩]
     [⟨some " ACME LTD ", none, none, none, none⟩]
     none none none none none none (by decide)⟩

/-- Claim C2: the riskScore of every returned verdict lies in `[0, 100]`: the
unbounded running penalty total is clamped exactly once at finalization via
`min 100 (max 0 (100 - total))`, and the value the handler returns is that
clamped score. -/
theorem C2_riskScore_bounds :
    (∀ res : Results, (finalize res).riskScore = min 100 (max 0 (100 - res.riskScore))) ∧
    (∀ res : Results, 0 ≤ (finalize res).riskScore ∧ (finalize res).riskScore ≤ 100) ∧
    (∀ req : RequestBody, ∀ env : Env, scoreInBounds (runDiligence req env)) := by
  refine ⟨fun res => rfl, fun res => ?_, fun req env => ?_⟩
  · show 0 ≤ min 100 (max 0 (100 - res.riskScore)) ∧ min 100 (max 0 (100 - res.riskScore)) ≤ 100
    omega
  · unfold runDiligence
    split
    · trivial
    · show 0 ≤ (finalize _).riskScore ∧ (finalize _).riskScore ≤ 100
      show (0 ≤ min 100 (max 0 (100 - _)) ∧ min 100 (max 0 (100 - _)) ≤ 100)
      omega

/-- Claim C7: the verdict classifier computes
`score = clamp(100 - penaltyTotal, 0, 100)` and assigns the level exactly by
the bands: `86..100 → GREEN`, `60..85 → YELLOW`, `31..59 → RED`,
`0..30 → BLACK`, for every accumulated penalty total. -/
theorem C7_verdict_bands (res : Results) :
    (finalize res).riskScore = min 100 (max 0 (100 - res.riskScore)) ∧
    ((86 ≤ (finalize res).riskScore ∧ (finalize res).riskLevel = "GREEN") ∨
     (60 ≤ (finalize res).riskScore ∧ (finalize res).riskScore ≤ 85 ∧
        (finalize res).riskLevel = "YELLOW") ∨
     (31 ≤ (finalize res).riskScore ∧ (finalize res).riskScore ≤ 59 ∧
        (finalize res).riskLevel = "RED") ∨
     (0 ≤ (finalize res).riskScore ∧ (finalize res).riskScore ≤ 30 ∧
        (finalize res).riskLevel = "BLACK")) := by
  have hs : (finalize res).riskScore = min 100 (max 0 (100 - res.riskScore)) := rfl
  have hl : (finalize res).riskLevel =
      (if min 100 (max 0 (100 - res.riskScore)) ≥ 86 then "GREEN"
       else if min 100 (max 0 (100 - res.riskScore)) ≥ 60 then "YELLOW"
       else if min 100 (max 0 (100 - res.riskScore)) ≥ 31 then "RED"
       else "BLACK") := rfl
  refine ⟨hs, ?_⟩
  rw [hs, hl]
  split_ifs with h1 h2 h3
  · exact Or.inl ⟨by omega, rfl⟩
  · exact Or.inr (Or.inl ⟨by omega, by omega, rfl⟩)
  · exact Or.inr (Or.inr (Or.inl ⟨by omega, by omega, rfl⟩))
  · exact Or.inr (Or.inr (Or.inr ⟨by omega, by omega, rfl⟩))

/-- Counterexample for claim C5 as stated: the acceptance rule is not the
claimed one.  A candidate on an FBI most-wanted dataset with confidence 0.10
is accepted by the code although the claim's rule rejects it at every
authoritative threshold in the stated 0.2-0.3 range; and a generic candidate
with confidence exactly 0.50 satisfies the claim's baseline clause but is
rejected by the code's strict `> 0.5` comparison. -/
theorem C5_counterexample :
    acceptCandidate candFBILow = true ∧
    ¬ specFuzzyAccept 20 candFBILow ∧
    ¬ specFuzzyAccept 30 candFBILow ∧
    acceptCandidate candHalf = false ∧
    specFuzzyAccept 20 candHalf ∧
    specFuzzyAccept 30 candHalf := by
  unfold specFuzzyAccept
  decide

/-- Claim C5 (amended): the matcher accepts a Candidate iff its tags mark an
authoritative critical (wanted-criminal) source — at any confidence — or its
topics mark crime/wanted/sanction and its confidence strictly exceeds 0.3, or
otherwise its confidence strictly exceeds 0.5; and the name-only Interpol
fallback accepts a notice iff forename and surname each contain or are
contained in the queried forename/surname (case-insensitively, no edit
distance). -/
theorem C5_matcher_amended :
    (∀ r : Candidate, acceptCandidate r = true ↔ specAcceptAmended r) ∧
    (∀ sf ss nf ns : String,
      interpolFallbackMatches sf ss nf ns = true ↔ specFallbackAmended sf ss nf ns) := by
  constructor
  · intro r
    unfold acceptCandidate specAcceptAmended
    rcases hb : isHighPriorityList r <;> rcases hc : hasCrimeTopic r <;>
      simp [hb, hc]
  · intro sf ss nf ns
    unfold interpolFallbackMatches specFallbackAmended
    simp [Bool.and_eq_true, Bool.or_eq_true]

/-- Counterexample for claim C3 as stated: `validateIBAN` performs no mod-97
check.  `DE89370400440532013000` is a validly-constructed IBAN (correct DE
length 22 and checksum 1); changing its final digit breaks the checksum
(mod-97 value 28), yet `validateIBAN` still reports the altered string
`valid: true`; and the result carries no groups-of-4 formatted field. -/
theorem C3_counterexample :
    specWellFormedIBAN ibanGood = true ∧
    oneCharDiff ibanGood ibanBad = true ∧
    ibanMod97 (cleanBankString ibanBad).data ≠ 1 ∧
    (validateIBAN ibanBad).valid = true := by
  decide

/-- Claim C3 (amended): `validateIBAN` checks only the structural pattern
(two letters, two digits, 11-30 alphanumerics).  Every validly-constructed
IBAN of a country in the source's own `ibanLengths` table is reported
`valid: true` with its country code, but any structurally well-formed string
is accepted too — breaking the mod-97 checksum of a valid IBAN never flips
the result to `valid: false`, and no groups-of-4 formatting is returned. -/
theorem C3_iban_structural_only :
    (∀ s : String, specWellFormedIBAN s = true →
      (validateIBAN s).valid = true ∧
      (validateIBAN s).countryCode = ⟨(cleanBankString s).data.take 2⟩) ∧
    (∀ t : String, ibanStructural (cleanBankString t).data = true →
      (validateIBAN t).valid = true) := by
  constructor
  · intro s hs
    have hstruct : ibanStructural (cleanBankString s).data = true := by
      unfold specWellFormedIBAN at hs
      unfold ibanStructural
      rcases hcl : (cleanBankString s).data with _ | ⟨a, rest1⟩
      · rw [hcl] at hs
        simp at hs
      rcases rest1 with _ | ⟨b, rest2⟩
      · rw [hcl] at hs
        simp at hs
      rcases rest2 with _ | ⟨c, rest3⟩
      · rw [hcl] at hs
        simp at hs
      rcases rest3 with _ | ⟨d, rest⟩
      · rw [hcl] at hs
        simp at hs
      rw [hcl] at hs
      simp only [Bool.and_eq_true, decide_eq_true_eq] at hs
      obtain ⟨⟨⟨⟨⟨⟨ha, hb⟩, hc⟩, hd⟩, hall⟩, hlen⟩, hmod⟩ := hs
      have hlen2 : ∃ n, ibanLengths.lookup (⟨[a, b]⟩ : String) = some n ∧ rest.length + 4 = n := by
        rcases hlu : ibanLengths.lookup (⟨[a, b]⟩ : String) with _ | n
        · rw [hlu] at hlen
          simp at hlen
        · rw [hlu] at hlen
          simp at hlen
          exact ⟨n, rfl, hlen⟩
      obtain ⟨n, hlu, hn⟩ := hlen2
      have hmem : ((⟨[a, b]⟩ : String), n) ∈ ibanLengths := lookup_mem _ _ _ hlu
      have hbound : 16 ≤ n ∧ n ≤ 27 := by
        have hall2 : ∀ p ∈ ibanLengths, 16 ≤ p.2 ∧ p.2 ≤ 27 := by decide
        exact hall2 _ hmem
      simp only [Bool.and_eq_true, decide_eq_true_eq]
      refine ⟨⟨⟨⟨⟨⟨ha, hb⟩, hc⟩, hd⟩, ?_⟩, ?_⟩, hall⟩
      · omega
      · omega
    constructor
    · unfold validateIBAN
      rw [if_pos hstruct]
    · unfold validateIBAN
      rw [if_pos hstruct]
  · intro t ht
    unfold validateIBAN
    rw [if_pos ht]

/-- Witness for C3's amended theorem at the concrete valid German IBAN. -/
theorem C3_iban_structural_only_witness :
    (specWellFormedIBAN ibanGood = true ∧
      (validateIBAN ibanGood).valid = true ∧
      (validateIBAN ibanGood).countryCode = ⟨(cleanBankString ibanGood).data.take 2⟩) ∧
    (ibanStructural (cleanBankString ibanGood).data = true ∧
      (validateIBAN ibanGood).valid = true) :=
  ⟨⟨by decide, C3_iban_structural_only.1 ibanGood (by decide)⟩,
   ⟨by decide, C3_iban_structural_only.2 ibanGood (by decide)⟩⟩

/-- Claim C1 (evidence of the code bug): a Case with one UK company that has a
confirmed sanctions match (no wanted tag) plus registry verifications is
returned as `YELLOW` with riskScore 75 — the v5.4 handler has no override
forcing `BLACK`/`≤ 25` for sanctions findings (the override block of the v5.2
handler, `src/unnamed/part_001` lines 711-718, was dropped), so positive
signals dilute the sanctions penalty. -/
theorem C1_sanctions_override_missing_eval :
    levelOf (runDiligence reqC1 envC1) = some "YELLOW" ∧
    scoreOf (runDiligence reqC1 envC1) = some 75 ∧
    sanctionsFoundOf (runDiligence reqC1 envC1) = some true ∧
    hasFlag (runDiligence reqC1 envC1) "🚨 Acme Trading Ltd: Potential sanctions match found" = true := by
  decide

/-- Claim C4 (evidence of the code bug): a request carrying only a disposable
email address is accepted by validation, but the handler builds no entities
from a bare top-level `email`, so the disposable-email check never runs: for
every provider environment the verdict has empty `redFlags`, riskScore 100 and
level `GREEN` instead of the claimed disposable-email red flag and penalty. -/
theorem C4_disposable_email_unchecked_eval (env : Env) :
    (runDiligence reqC4 env).isSome = true ∧
    redFlagsOf (runDiligence reqC4 env) = [] ∧
    scoreOf (runDiligence reqC4 env) = some 100 ∧
    levelOf (runDiligence reqC4 env) = some "GREEN" :=
  ⟨rfl, rfl, rfl, rfl⟩

/-- Counterexample for claim C8 as stated: with the OpenSanctions fetch
failing (network error — the provider never responded), the run still
completes, but `databasesChecked` nevertheless lists `"OpenSanctions"`: the
list records consulted databases, not responding ones. -/
theorem C8_counterexample :
    envAllErr.osFetch "Acme Trading Ltd" = OSFetch.netError ∧
    checkOpenSanctions OSFetch.netError = noFindingOS ∧
    hasDb (runDiligence reqC8 envAllErr) "OpenSanctions" = true ∧
    levelOf (runDiligence reqC8 envAllErr) = some "GREEN" := by
  refine ⟨rfl, rfl, ?_, ?_⟩ <;> decide

theorem mem_dbs_applyContribution (res : Results) (c : Contribution) (x : String) :
    x ∈ (applyContribution res c).databasesChecked ↔
      x ∈ res.databasesChecked ∨ x ∈ c.dbs :=
  mem_foldl_pushIfAbsent c.dbs res.databasesChecked x

theorem os_mem_entityContribution_dbs (env : Env) (tc : Option String) (e : Entity) :
    "OpenSanctions" ∈ (entityContribution env tc e).dbs := by
  show "OpenSanctions" ∈ ["OpenSanctions"] ++ _
  exact List.mem_append.mpr (Or.inl (List.mem_singleton.mpr rfl))

theorem mem_dbs_foldl_entity (env : Env) (tc : Option String) (l : List Entity)
    (res : Results) (x : String) (h : x ∈ res.databasesChecked) :
    x ∈ (l.foldl (entityStep env tc) res).databasesChecked := by
  induction l generalizing res with
  | nil => exact h
  | cons e t ih =>
    rw [List.foldl_cons]
    exact ih _ ((mem_dbs_applyContribution res _ x).mpr (Or.inl h))

theorem os_mem_dbs_fold (env : Env) (tc : Option String) (e : Entity) (l : List Entity)
    (res : Results) :
    "OpenSanctions" ∈ ((e :: l).foldl (entityStep env tc) res).databasesChecked := by
  rw [List.foldl_cons]
  exact mem_dbs_foldl_entity env tc l _ _
    ((mem_dbs_applyContribution res _ _).mpr (Or.inr (os_mem_entityContribution_dbs env tc e)))

theorem dbs_ibanStep (req : RequestBody) (res : Results) :
    (ibanStep req res).databasesChecked = res.databasesChecked := by
  unfold ibanStep
  split
  · rfl
  · split
    · rfl
    · dsimp only
      split
      · split
        · rfl
        · rfl
      · rfl

theorem dbs_swiftStep (req : RequestBody) (res : Results) :
    (swiftStep req res).databasesChecked = res.databasesChecked := by
  unfold swiftStep
  split
  · rfl
  · split
    · rfl
    · dsimp only
      split
      · rfl
      · rfl

theorem dbs_foldl_jurisdiction (js : List String) (res : Results) :
    (js.foldl jurisdictionStep res).databasesChecked = res.databasesChecked := by
  induction js generalizing res with
  | nil => rfl
  | cons j t ih =>
    rw [List.foldl_cons, ih]
    rfl

theorem entitiesNonempty_ne (req : RequestBody) (h : entitiesNonempty req = true) :
    (buildEntities req).entities ≠ [] := by
  unfold entitiesNonempty at h
  intro hc
  rw [hc] at h
  simp at h

/-- Claim C8 (amended): no individual provider failure aborts the run — a
failed OpenSanctions fetch (thrown error or non-2xx status) yields the
no-finding result and the run still returns a full verdict — but
`databasesChecked` records every consulted database, including
`"OpenSanctions"` whenever at least one entity was checked, regardless of
whether the provider actually responded. -/
theorem C8_provider_failure_amended :
    (∀ code : Nat, checkOpenSanctions (OSFetch.httpNotOk code) = noFindingOS) ∧
    checkOpenSanctions OSFetch.netError = noFindingOS ∧
    (∀ (req : RequestBody) (env : Env), entitiesNonempty req = true →
      listsOpenSanctionsDb (runDiligence req env)) := by
  refine ⟨fun code => rfl, rfl, fun req env hne => ?_⟩
  unfold runDiligence
  split
  · trivial
  · show "OpenSanctions" ∈ (finalize (dedupSignals (accumulateCase req env))).databasesChecked
    have h1 : (finalize (dedupSignals (accumulateCase req env))).databasesChecked
        = dedupFirst (accumulateCase req env).databasesChecked := rfl
    rw [h1, mem_dedupFirst]
    unfold accumulateCase
    rw [dbs_foldl_jurisdiction, dbs_swiftStep, dbs_ibanStep]
    have hne2 := entitiesNonempty_ne req hne
    rcases hents : (buildEntities req).entities with _ | ⟨e, rest⟩
    · exact absurd hents hne2
    · exact os_mem_dbs_fold env req.country e rest initResults

/-- Witness for C8's amended theorem at the all-errors environment. -/
theorem C8_provider_failure_amended_witness :
    entitiesNonempty reqC8 = true ∧ listsOpenSanctionsDb (runDiligence reqC8 envAllErr) :=
  ⟨by decide, C8_provider_failure_amended.2.2 reqC8 envAllErr (by decide)⟩

theorem score_foldl_entity (env : Env) (tc : Option String) (l : List Entity) (res : Results) :
    (l.foldl (entityStep env tc) res).riskScore =
      res.riskScore + (l.map (fun e => (entityContribution env tc e).delta)).sum := by
  induction l generalizing res with
  | nil => simp
  | cons e t ih =>
    rw [List.foldl_cons, ih]
    have h : (entityStep env tc res e).riskScore
        = res.riskScore + (entityContribution env tc e).delta := rfl
    rw [h, List.map_cons, List.sum_cons]
    omega

theorem red_foldl_entity (env : Env) (tc : Option String) (l : List Entity) (res : Results) :
    (l.foldl (entityStep env tc) res).redFlags =
      res.redFlags ++ l.flatMap (fun e => (entityContribution env tc e).red) := by
  induction l generalizing res with
  | nil => simp
  | cons e t ih =>
    rw [List.foldl_cons, ih]
    have h : (entityStep env tc res e).redFlags
        = res.redFlags ++ (entityContribution env tc e).red := rfl
    rw [h, List.flatMap_cons, List.append_assoc]

theorem pos_foldl_entity (env : Env) (tc : Option String) (l : List Entity) (res : Results) :
    (l.foldl (entityStep env tc) res).positiveSignals =
      res.positiveSignals ++ l.flatMap (fun e => (entityContribution env tc e).pos) := by
  induction l generalizing res with
  | nil => simp
  | cons e t ih =>
    rw [List.foldl_cons, ih]
    have h : (entityStep env tc res e).positiveSignals
        = res.positiveSignals ++ (entityContribution env tc e).pos := rfl
    rw [h, List.flatMap_cons, List.append_assoc]

theorem score_foldl_jur (js : List String) (res : Results) :
    (js.foldl jurisdictionStep res).riskScore =
      res.riskScore + (js.map (fun j => (jPenalty (checkJurisdictionRisk j) j).1)).sum := by
  induction js generalizing res with
  | nil => simp
  | cons j t ih =>
    rw [List.foldl_cons, ih]
    have h : (jurisdictionStep res j).riskScore
        = res.riskScore + (jPenalty (checkJurisdictionRisk j) j).1 := rfl
    rw [h, List.map_cons, List.sum_cons]
    omega

theorem red_foldl_jur (js : List String) (res : Results) :
    (js.foldl jurisdictionStep res).redFlags =
      res.redFlags ++ js.flatMap (fun j => (jPenalty (checkJurisdictionRisk j) j).2) := by
  induction js generalizing res with
  | nil => simp
  | cons j t ih =>
    rw [List.foldl_cons, ih]
    have h : (jurisdictionStep res j).redFlags
        = res.redFlags ++ (jPenalty (checkJurisdictionRisk j) j).2 := rfl
    rw [h, List.flatMap_cons, List.append_assoc]

theorem pos_foldl_jur (js : List String) (res : Results) :
    (js.foldl jurisdictionStep res).positiveSignals = res.positiveSignals := by
  induction js generalizing res with
  | nil => rfl
  | cons j t ih =>
    rw [List.foldl_cons, ih]
    rfl

theorem score_foldl_inst (ins : List Instrument) (res : Results) :
    (ins.foldl instrumentStep res).riskScore =
      res.riskScore + (ins.map (fun i => (instPenalty i).1)).sum := by
  induction ins generalizing res with
  | nil => simp
  | cons i t ih =>
    rw [List.foldl_cons, ih]
    have h : (instrumentStep res i).riskScore = res.riskScore + (instPenalty i).1 := rfl
    rw [h, List.map_cons, List.sum_cons]
    omega

theorem red_foldl_inst (ins : List Instrument) (res : Results) :
    (ins.foldl instrumentStep res).redFlags =
      res.redFlags ++ ins.flatMap (fun i => (instPenalty i).2) := by
  induction ins generalizing res with
  | nil => simp
  | cons i t ih =>
    rw [List.foldl_cons, ih]
    have h : (instrumentStep res i).redFlags = res.redFlags ++ (instPenalty i).2 := rfl
    rw [h, List.flatMap_cons, List.append_assoc]

theorem pos_foldl_inst (ins : List Instrument) (res : Results) :
    (ins.foldl instrumentStep res).positiveSignals = res.positiveSignals := by
  induction ins generalizing res with
  | nil => rfl
  | cons i t ih =>
    rw [List.foldl_cons, ih]
    rfl

/-- Claim C9: score accumulation is commutative.  Applying a fixed multiset of
entity findings, jurisdiction signals and instrument signals in any
permutation yields the same final clamped riskScore and the same deduplicated
sets of `redFlags` and `positiveSignals`. -/
theorem C9_accumulator_commutative (env : Env) (tc : Option String) (res : Results)
    (l₁ l₂ : List Entity) (js₁ js₂ : List String) (ins₁ ins₂ : List Instrument)
    (hl : l₁.Perm l₂) (hj : js₁.Perm js₂) (hi : ins₁.Perm ins₂) :
    (finalize (applySignalLists env tc res l₁ js₁ ins₁)).riskScore =
      (finalize (applySignalLists env tc res l₂ js₂ ins₂)).riskScore ∧
    (dedupFirst (applySignalLists env tc res l₁ js₁ ins₁).redFlags).toFinset =
      (dedupFirst (applySignalLists env tc res l₂ js₂ ins₂).redFlags).toFinset ∧
    (dedupFirst (applySignalLists env tc res l₁ js₁ ins₁).positiveSignals).toFinset =
      (dedupFirst (applySignalLists env tc res l₂ js₂ ins₂).positiveSignals).toFinset := by
  have hscore : (applySignalLists env tc res l₁ js₁ ins₁).riskScore =
      (applySignalLists env tc res l₂ js₂ ins₂).riskScore := by
    unfold applySignalLists
    rw [score_foldl_inst, score_foldl_jur, score_foldl_entity,
        score_foldl_inst, score_foldl_jur, score_foldl_entity]
    rw [(hl.map (fun e => (entityContribution env tc e).delta)).sum_eq,
        (hj.map (fun j => (jPenalty (checkJurisdictionRisk j) j).1)).sum_eq,
        (hi.map (fun i => (instPenalty i).1)).sum_eq]
  have hred : (applySignalLists env tc res l₁ js₁ ins₁).redFlags.Perm
      (applySignalLists env tc res l₂ js₂ ins₂).redFlags := by
    unfold applySignalLists
    rw [red_foldl_inst, red_foldl_jur, red_foldl_entity,
        red_foldl_inst, red_foldl_jur, red_foldl_entity]
    exact (((List.Perm.refl res.redFlags).append (hl.flatMap_right _)).append
      (hj.flatMap_right _)).append (hi.flatMap_right _)
  have hpos : (applySignalLists env tc res l₁ js₁ ins₁).positiveSignals.Perm
      (applySignalLists env tc res l₂ js₂ ins₂).positiveSignals := by
    unfold applySignalLists
    rw [pos_foldl_inst, pos_foldl_jur, pos_foldl_entity,
        pos_foldl_inst, pos_foldl_jur, pos_foldl_entity]
    exact (List.Perm.refl res.positiveSignals).append (hl.flatMap_right _)
  refine ⟨?_, ?_, ?_⟩
  · have h1 : (finalize (applySignalLists env tc res l₁ js₁ ins₁)).riskScore =
        min 100 (max 0 (100 - (applySignalLists env tc res l₁ js₁ ins₁).riskScore)) := rfl
    have h2 : (finalize (applySignalLists env tc res l₂ js₂ ins₂)).riskScore =
        min 100 (max 0 (100 - (applySignalLists env tc res l₂ js₂ ins₂).riskScore)) := rfl
    rw [h1, h2, hscore]
  · rw [dedupFirst_toFinset, dedupFirst_toFinset]
    apply Finset.ext
    intro a
    simp only [List.mem_toFinset]
    exact hred.mem_iff
  · rw [dedupFirst_toFinset, dedupFirst_toFinset]
    apply Finset.ext
    intro a
    simp only [List.mem_toFinset]
    exact hpos.mem_iff

/-- Witness for C9 at concrete permuted signal lists. -/
theorem C9_accumulator_commutative_witness :
    ([entityW1, entityW2] : List Entity).Perm [entityW2, entityW1] ∧
    (["UK", "Iran"] : List String).Perm ["Iran", "UK"] ∧
    ([instW] : List Instrument).Perm [instW] ∧
    ((finalize (applySignalLists envAllErr none initResults [entityW1, entityW2] ["UK", "Iran"] [instW])).riskScore =
      (finalize (applySignalLists envAllErr none initResults [entityW2, entityW1] ["Iran", "UK"] [instW])).riskScore ∧
    (dedupFirst (applySignalLists envAllErr none initResults [entityW1, entityW2] ["UK", "Iran"] [instW]).redFlags).toFinset =
      (dedupFirst (applySignalLists envAllErr none initResults [entityW2, entityW1] ["Iran", "UK"] [instW]).redFlags).toFinset ∧
    (dedupFirst (applySignalLists envAllErr none initResults [entityW1, entityW2] ["UK", "Iran"] [instW]).positiveSignals).toFinset =
      (dedupFirst (applySignalLists envAllErr none initResults [entityW2, entityW1] ["Iran", "UK"] [instW]).positiveSignals).toFinset) :=
  ⟨List.Perm.swap entityW2 entityW1 [], List.Perm.swap "Iran" "UK" [], List.Perm.refl [instW],
   C9_accumulator_commutative envAllErr none initResults
     [entityW1, entityW2] [entityW2, entityW1] ["UK", "Iran"] ["Iran", "UK"] [instW] [instW]
     (List.Perm.swap entityW2 entityW1 []) (List.Perm.swap "Iran" "UK" []) (List.Perm.refl [instW])⟩

/-- Claim C10: jurisdiction classification uses substring containment against
lowercase name lists whose high-secrecy tier includes `usa` and `delaware`:
any country string containing `usa` or `delaware` (lowered and trimmed) with
no higher-tier match gains the High Secrecy Jurisdiction red flag and a +10
penalty, while the spelled-out `"United States"` triggers no flag and no
penalty at all. -/
theorem C10_usa_delaware_high_secrecy (j : String) (res : Results)
    (h1 : usaOrDelaware j = true) (h2 : noHigherTier j = true) :
    ((jurisdictionStep res j).riskScore = res.riskScore + 10 ∧
     (jurisdictionStep res j).redFlags = res.redFlags ++ [s!"⚠️ High Secrecy Jurisdiction: {j}"]) ∧
    ((jurisdictionStep res "United States").riskScore = res.riskScore ∧
     (jurisdictionStep res "United States").redFlags = res.redFlags) := by
  have hjne : (j == "") = false := by
    cases hq : (j == "") with
    | false => rfl
    | true =>
      exfalso
      have hjeq : j = "" := eq_of_beq hq
      subst hjeq
      have hfalse : usaOrDelaware "" = false := by decide
      rw [hfalse] at h1
      exact absurd h1 (by simp)
  unfold noHigherTier at h2
  obtain ⟨hxy, hgl0⟩ := Bool.and_eq_true_iff.mp h2
  obtain ⟨hbl0, hsc0⟩ := Bool.and_eq_true_iff.mp hxy
  have notTrue : ∀ b : Bool, (!b) = true → b = false := by decide
  have hbl := notTrue _ hbl0
  have hsc := notTrue _ hsc0
  have hgl := notTrue _ hgl0
  have hhs : highSecrecyTable.any (fun c => containsSub (jsTrim (jsToLower j)) c) = true := by
    simp only [usaOrDelaware, Bool.or_eq_true] at h1
    rcases h1 with h | h
    · exact List.any_eq_true.mpr ⟨"usa", by decide, h⟩
    · exact List.any_eq_true.mpr ⟨"delaware", by decide, h⟩
  have hjr : checkJurisdictionRisk j =
      ⟨j, false, false, false, true, "medium"⟩ := by
    unfold checkJurisdictionRisk
    rw [if_neg (by simp [hjne])]
    dsimp only
    rw [hbl, hsc, hgl, hhs]
    rfl
  have hus : checkJurisdictionRisk "United States" =
      ⟨"United States", false, false, false, false, "low"⟩ := by decide
  refine ⟨⟨?_, ?_⟩, ?_, ?_⟩
  · show res.riskScore + (jPenalty (checkJurisdictionRisk j) j).1 = res.riskScore + 10
    rw [hjr]
    rfl
  · show res.redFlags ++ (jPenalty (checkJurisdictionRisk j) j).2 = _
    rw [hjr]
    rfl
  · show res.riskScore + (jPenalty (checkJurisdictionRisk "United States") "United States").1
        = res.riskScore
    rw [hus]
    show res.riskScore + 0 = res.riskScore
    omega
  · show res.redFlags ++ (jPenalty (checkJurisdictionRisk "United States") "United States").2
        = res.redFlags
    rw [hus]
    show res.redFlags ++ [] = res.redFlags
    simp

/-- Witness for C10 at the concrete country string `"USA"`. -/
theorem C10_usa_delaware_high_secrecy_witness :
    usaOrDelaware "USA" = true ∧ noHigherTier "USA" = true ∧
    (((jurisdictionStep initResults "USA").riskScore = initResults.riskScore + 10 ∧
      (jurisdictionStep initResults "USA").redFlags =
        initResults.redFlags ++ ["⚠️ High Secrecy Jurisdiction: USA"]) ∧
     ((jurisdictionStep initResults "United States").riskScore = initResults.riskScore ∧
      (jurisdictionStep initResults "United States").redFlags = initResults.redFlags)) :=
  ⟨by decide, by decide,
   C10_usa_delaware_high_secrecy "USA" initResults (by decide) (by decide)⟩
